import Mathlib

/- Verification of the Porter voice-assistant intent-classification and
   dialogue layer (server/src/controllers/aiController.ts together with the
   Order schema in server/src/models/Order.ts), shallowly embedded:
   JS strings as lists of characters (the utterances handled are ASCII, so
   JS toLowerCase and toUpperCase are modelled as ASCII case maps), the
   MongoDB order collection as a list of records in insertion order, the
   generative-text backend as an explicit oracle passed as input, Date
   values as integer milliseconds with UTC day arithmetic, and
   Math.random().toString(36).slice(2, 8) as an explicit string input. -/

/- ===== Characters and case maps ===== -/

def apoC : Char := Char.ofNat 39

def apoS : String := String.mk [apoC]

/-- The ASCII letter case table: upper next to lower. -/
def casePairs : List (Char × Char) :=
  (("ABCDEFGHIJKLMNOPQRSTUVWXYZ").data).zip (("abcdefghijklmnopqrstuvwxyz").data)

/-- ASCII lower-casing of one character, modelling JS toLowerCase. -/
def lowChar (c : Char) : Char :=
  ((casePairs.find? (fun p => p.1 == c)).map (fun p => p.2)).getD c

/-- ASCII upper-casing of one character, modelling JS toUpperCase. -/
def upChar (c : Char) : Char :=
  ((casePairs.find? (fun p => p.2 == c)).map (fun p => p.1)).getD c

def lowerL (l : List Char) : List Char := l.map lowChar

def upperL (l : List Char) : List Char := l.map upChar

/-- The lower-cased character data of a string (JS text.toLowerCase()). -/
def lowT (s : String) : List Char := lowerL s.data

/-- The regex character class [A-Za-z0-9]. -/
def alnum (c : Char) : Bool := c.isAlphanum

/-- The regex character class [A-Za-z0-9-]. -/
def alnumDash (c : Char) : Bool := c.isAlphanum || c == '-'

/- ===== List-of-characters scanning primitives ===== -/

/-- pat is a literal prefix of l. -/
def isPreL : List Char → List Char → Bool
  | [], _ => true
  | _ :: _, [] => false
  | a :: as, b :: bs => a == b && isPreL as bs

/-- pat occurs literally somewhere in l (JS String.includes / regex literal). -/
def hasPat (pat : List Char) : List Char → Bool
  | [] => isPreL pat []
  | l@(_ :: tl) => isPreL pat l || hasPat pat tl

/-- Some pattern of the list occurs in l: models a regex alternation of
    literals tested with .test(). -/
def anyPat (pats : List String) (l : List Char) : Bool :=
  pats.any (fun p => hasPat p.data l)

/-- First character of l satisfies cls. -/
def headIs (cls : Char → Bool) : List Char → Bool
  | [] => false
  | c :: _ => cls c

/-- Greedy capture of a nonempty class run ((cls)+ at the current position). -/
def runCap (cls : Char → Bool) (l : List Char) : List Char := l.takeWhile cls

/-- Leftmost match of the regex  lit(cls+)  over l, returning the capture
    group: scan positions left to right; at each, require the literal and at
    least one class character after it. -/
def scanLitCap (lit : List Char) (cls : Char → Bool) : List Char → Option (List Char)
  | [] => none
  | l@(_ :: tl) =>
    if isPreL lit l && headIs cls (l.drop lit.length) then
      some (runCap cls (l.drop lit.length))
    else scanLitCap lit cls tl

/- ===== The two tracking regexes of parseIntent =====
   /track (?:order )?([A-Za-z0-9-]+)/  with JS backtracking on the optional
   group, and /where is order ([A-Za-z0-9-]+)/, both over the lower-cased
   text. -/

/-- Match attempt of /track (?:order )?([A-Za-z0-9-]+)/ anchored at the head
    of l, including the backtracking step: the engine first consumes the
    optional "order " and, if no class character follows, retries without
    consuming it. -/
def trackAt (l : List Char) : Option (List Char) :=
  if isPreL ("track ").data l then
    if isPreL ("order ").data (l.drop 6) && headIs alnumDash (l.drop 12) then
      some (runCap alnumDash (l.drop 12))
    else if headIs alnumDash (l.drop 6) then
      some (runCap alnumDash (l.drop 6))
    else none
  else none

def scanTrack : List Char → Option (List Char)
  | [] => none
  | l@(_ :: tl) =>
    match trackAt l with
    | some cap => some cap
    | none => scanTrack tl

/-- t.match(re1) || t.match(re2) of parseIntent: first the track regex, then
    the where-is-order regex. -/
def trackCap (t : List Char) : Option (List Char) :=
  match scanTrack t with
  | some cap => some cap
  | none => scanLitCap ("where is order ").data alnumDash t

/- ===== Intent trigger patterns (parseIntent, lines 27-34) ===== -/

def createPats : List String :=
  ["create order", "create an order", "place order", "i want to order",
   "new order", "add order"]

def pickupPats : List String :=
  ["next pickup", "next delivery", "next order",
   "what" ++ apoS ++ "s my next pickup", "what is my next pickup"]

def listPats : List String :=
  ["list orders", "list my orders", "show orders", "show my orders",
   "recent orders"]

def cancelPats : List String := ["cancel order", "delete order"]

def addrPats : List String := ["add address", "update address"]

structure ParsedIntent where
  intent : String
  trackingId : Option String
deriving DecidableEq, Repr

/-- parseIntent (aiController.ts lines 25-36): lower-case the text, then test
    the trigger patterns in declaration order, first match wins; the track
    regexes also capture the token after the trigger as trackingId. -/
def parseIntent (text : String) : ParsedIntent :=
  if anyPat createPats (lowT text) = true then ⟨"create_order", none⟩
  else
    match trackCap (lowT text) with
    | some cap => ⟨"track_order", some (String.mk cap)⟩
    | none =>
      if anyPat pickupPats (lowT text) = true then ⟨"next_pickup", none⟩
      else if anyPat listPats (lowT text) = true then ⟨"list_orders", none⟩
      else if anyPat cancelPats (lowT text) = true then ⟨"cancel_order", none⟩
      else if anyPat addrPats (lowT text) = true then ⟨"update_address", none⟩
      else ⟨"general", none⟩

/- ===== Occurrence search and JS String.split / trim ===== -/

/-- Index of the first occurrence of sep in l (JS indexOf). -/
def firstOcc (sep : List Char) : List Char → Option Nat
  | [] => if isPreL sep [] then some 0 else none
  | l@(_ :: tl) =>
    if isPreL sep l then some 0 else (firstOcc sep tl).map (· + 1)

/-- text.split(sep)[1]: the segment between the first and the second
    occurrence of sep (everything after the first occurrence when it is the
    only one); none when sep does not occur. -/
def splitSecond (sep l : List Char) : Option (List Char) :=
  match firstOcc sep l with
  | none => none
  | some i =>
    match firstOcc sep (l.drop (i + sep.length)) with
    | none => some (l.drop (i + sep.length))
    | some j => some ((l.drop (i + sep.length)).take j)

def isWS (c : Char) : Bool := c == ' ' || c == '\t' || c == '\n' || c == '\r'

/-- JS String.trim restricted to ASCII whitespace. -/
def trimL (l : List Char) : List Char :=
  ((l.dropWhile isWS).reverse.dropWhile isWS).reverse

/-- Leftmost case-insensitive match of /ORD-[A-Za-z0-9]+/i, returning the
    matched slice m[0] in its original case. -/
def scanOrd : List Char → Option (List Char)
  | [] => none
  | l@(_ :: tl) =>
    if isPreL ("ord-").data (lowerL l) && headIs alnum (l.drop 4) then
      some (l.take 4 ++ runCap alnum (l.drop 4))
    else scanOrd tl

/-- Leftmost case-insensitive match of /cancel order ([A-Za-z0-9-]+)/i over
    the original text, returning the capture group in its original case. -/
def cancelCap : List Char → Option (List Char)
  | [] => none
  | l@(_ :: tl) =>
    if isPreL ("cancel order ").data (lowerL l) && headIs alnumDash (l.drop 13) then
      some (runCap alnumDash (l.drop 13))
    else cancelCap tl

/- ===== Data model (models/Order.ts, Msg, sessions) ===== -/

/-- One document of the Order collection. metadata is the optional
    {createdBy, createdVia} object; timestamps: true supplies createdAt. -/
structure OrderRec where
  customerName : Option String
  address : Option String
  item : String
  qty : Int
  status : String
  pickupTime : Option Int
  trackingId : String
  metadata : Option (String × String)
  createdAt : Int
deriving DecidableEq, Repr

/-- Internal history message type Msg of the controller. -/
structure Msg where
  role : String
  content : String
  name : Option String
deriving DecidableEq, Repr

/-- JSON object the extractor LLM is asked to return, after JSON.parse:
    the oracle answers none on API error or parse failure. -/
structure RawExtract where
  customerName : Option String
  address : Option String
  item : Option String
  qty : Option Int
  pickupTime : Option Int

/-- Extracted order fields after defaulting. -/
structure Extracted where
  customerName : Option String
  address : Option String
  item : String
  qty : Int
  pickupTime : Option Int
deriving DecidableEq, Repr

/-- The Groq collaborator: extraction, Hindi translation and open chat.
    A none / .error answer models an API error (or, for extract, a JSON
    parse failure; for translate and chat, also absent message content is
    modelled by some "" and none respectively). -/
structure Backend where
  extract : String → Option RawExtract
  translate : String → Option String
  chat : List Msg → Except Unit (Option String)

abbrev Sessions := List (String × List Msg)

def lookupSession (ss : Sessions) (uid : String) : Option (List Msg) :=
  match ss with
  | [] => none
  | p :: tl => if p.1 = uid then some p.2 else lookupSession tl uid

def setSession (ss : Sessions) (uid : String) (h : List Msg) : Sessions :=
  match ss with
  | [] => [(uid, h)]
  | p :: tl => if p.1 = uid then (uid, h) :: tl else p :: setSession tl uid h

def seedContent : String :=
  "You are Porter Saathi, a concise, empathetic, Hindi-speaking assistant for deliveries. Always explain things simply and offer to speak in Hindi if needed."

def seedMsg : Msg := ⟨"system", seedContent, none⟩

/-- The history the handler works on: the stored one, seeded with the system
    preamble when this user has none yet (lines 196-201). -/
def currentHist (ss : Sessions) (uid : String) : List Msg :=
  match lookupSession ss uid with
  | some h => h
  | none => [seedMsg]

def userMsg (text : String) : Msg := ⟨"user", text, none⟩

def asstMsg (reply : String) : Msg := ⟨"assistant", reply, none⟩

/- ===== Tracking id generation (lines 21-23) ===== -/

def base36Digits : List Char := ("0123456789abcdefghijklmnopqrstuvwxyz").data

def base36Digit (n : Nat) : Char := base36Digits.getD n '0'

def toBase36Aux : Nat → Nat → List Char
  | 0, _ => []
  | _ + 1, 0 => []
  | fuel + 1, n + 1 => toBase36Aux fuel ((n + 1) / 36) ++ [base36Digit ((n + 1) % 36)]

/-- n.toString(36) of JS for a nonnegative integer. -/
def natToBase36 (n : Nat) : List Char :=
  if n = 0 then ['0'] else toBase36Aux (n + 1) n

/-- makeTrackingId: "ORD-" + Date.now().toString(36) +
    Math.random().toString(36).slice(2, 8).toUpperCase(); now is the
    millisecond clock and rand the random base36 slice. -/
def makeTrackingId (now : Int) (rand : String) : String :=
  "ORD-" ++ String.mk (natToBase36 now.toNat) ++ String.mk (upperL rand.data)

/- ===== Order store operations (Mongo collaborator) ===== -/

/-- order.save() under the unique index on trackingId: a duplicate insert is
    rejected (the driver throws), otherwise the document is appended. -/
def saveOrder (o : OrderRec) (store : List OrderRec) : Option (List OrderRec) :=
  if store.any (fun p => p.trackingId = o.trackingId) then none
  else some (store ++ [o])

def findByTid (store : List OrderRec) (tid : String) : Option OrderRec :=
  store.find? (fun o => o.trackingId = tid)

/-- findOneAndUpdate({trackingId}, patch, {new: true}): patch the first
    matching document, returning the patched document and the new store. -/
def updFirst (p : OrderRec → Bool) (f : OrderRec → OrderRec) :
    List OrderRec → Option OrderRec × List OrderRec
  | [] => (none, [])
  | o :: tl =>
    if p o then (some (f o), f o :: tl)
    else
      let r := updFirst p f tl
      (r.1, o :: r.2)

def nonTerminal (o : OrderRec) : Bool :=
  o.status = "created" || o.status = "assigned" || o.status = "pending"

/-- Strict comparison of (pickupTime, createdAt) sort keys: ascending BSON
    order places null pickupTime before every date. -/
def keyLt : Option Int × Int → Option Int × Int → Bool
  | (none, ca), (none, cb) => decide (ca < cb)
  | (none, _), (some _, _) => true
  | (some _, _), (none, _) => false
  | (some x, ca), (some y, cb) =>
    decide (x < y) || (decide (x = y) && decide (ca < cb))

/-- Strict comparison realising Mongo sort({pickupTime: 1, createdAt: 1}). -/
def mongoLt (a b : OrderRec) : Bool :=
  keyLt (a.pickupTime, a.createdAt) (b.pickupTime, b.createdAt)

/-- findOne({status: {$in: [created, assigned, pending]}})
      .sort({pickupTime: 1, createdAt: 1}):
    the first minimal non-terminal document (ties beyond both sort keys are
    resolved towards insertion order, matching a stable sort). -/
def findNextPickup (store : List OrderRec) : Option OrderRec :=
  (store.filter nonTerminal).foldl
    (fun acc o =>
      match acc with
      | none => some o
      | some b => if mongoLt o b then some o else some b)
    none

/-- Stable insertion keeping descending createdAt (Mongo sort createdAt: -1). -/
def insertDesc (o : OrderRec) : List OrderRec → List OrderRec
  | [] => [o]
  | x :: tl => if decide (x.createdAt < o.createdAt) then o :: x :: tl else x :: insertDesc o tl

def sortDesc : List OrderRec → List OrderRec
  | [] => []
  | o :: tl => insertDesc o (sortDesc tl)

/-- find({}).sort({createdAt: -1}).limit(10). -/
def recentOrders (store : List OrderRec) : List OrderRec :=
  (sortDesc store).take 10

/- ===== LLM extractor and translator (lines 38-99) ===== -/

/-- extractOrderFieldsWithLLM: without a backend, or on API/parse failure,
    the default strategy (item = verbatim text, qty = 1); otherwise the
    parsed JSON with JS falsy-defaulting (|| null, || text, qty 0 -> 1). -/
def extractOrderFieldsWithLLM (cfg : Option Backend) (text : String) : Extracted :=
  match cfg with
  | none => ⟨none, none, text, 1, none⟩
  | some b =>
    match b.extract text with
    | none => ⟨none, none, text, 1, none⟩
    | some raw =>
      ⟨Option.filter (fun s => !(s = "")) raw.customerName,
       Option.filter (fun s => !(s = "")) raw.address,
       match raw.item with
       | some it => if it = "" then text else it
       | none => text,
       match raw.qty with
       | some q => if q = 0 then 1 else q
       | none => 1,
       raw.pickupTime⟩

/-- translateToHindi: ask the backend, keep a nonempty trimmed translation,
    fall back to the original text on error or empty output. -/
def translateToHindi (cfg : Option Backend) (text : String) : String :=
  match cfg with
  | none => text
  | some b =>
    match b.translate text with
    | none => text
    | some s => if String.mk (trimL s.data) = "" then text else String.mk (trimL s.data)

/- ===== Business metrics (lines 101-152) ===== -/

structure Metrics where
  todayEarnings : Int
  todayExpenses : Int
  lastWeekEarnings : Int
  thisWeekEarnings : Int
  penalties : List (String × Int × Int)
  rewards : List (String × Int × Int)
deriving DecidableEq, Repr

def dayMs : Int := 86400000

/-- getBusinessMetrics, with setHours(0,0,0,0) and getDay() modelled by UTC
    day arithmetic on millisecond timestamps (the epoch was a Thursday). -/
def getBusinessMetrics (store : List OrderRec) (now : Int) : Metrics :=
  let todayStart := now - now % dayMs
  let tomorrow := todayStart + dayMs
  let todayOrders := store.filter
    (fun o => o.metadata.isSome && decide (todayStart ≤ o.createdAt) && decide (o.createdAt < tomorrow))
  let dow := (todayStart / dayMs + 4) % 7
  let startOfThisWeek := todayStart - dow * dayMs
  let startOfLastWeek := startOfThisWeek - 7 * dayMs
  let thisWeekOrders := store.filter
    (fun o => decide (startOfThisWeek ≤ o.createdAt) && decide (o.createdAt < now))
  let lastWeekOrders := store.filter
    (fun o => decide (startOfLastWeek ≤ o.createdAt) && decide (o.createdAt < startOfThisWeek))
  { todayEarnings := todayOrders.length * 200
    todayExpenses := todayOrders.length * 50
    lastWeekEarnings := lastWeekOrders.length * 200
    thisWeekEarnings := thisWeekOrders.length * 200
    penalties := (todayOrders.filter (fun o => o.status = "late")).map
      (fun o => ("Late delivery", 50, o.createdAt))
    rewards := (todayOrders.filter (fun o => o.status = "delivered")).map
      (fun o => ("On-time delivery", 100, o.createdAt)) }

/- ===== Learning modules, guides, empathetic replies (lines 154-190) ===== -/

structure GuideRec where
  id : String
  title : String
  steps : List String
deriving DecidableEq, Repr

structure ModuleRec where
  id : String
  title : String
  summary : String
  steps : List String
deriving DecidableEq, Repr

def learningModules : List ModuleRec :=
  [⟨"insurance", "Vehicle Insurance Basics",
    "Learn about vehicle insurance in simple terms.",
    ["Insurance protects you from big expenses.", "You must renew it every year.",
     "Keep your policy document safe."]⟩,
   ⟨"customer-service", "Customer Service Tips", "How to keep customers happy.",
    ["Greet customers politely.", "Be on time.", "Handle goods carefully."]⟩]

def guides : List GuideRec :=
  [⟨"challan", "How to Contest a Challan",
    ["Go to the official traffic website.", "Enter your challan number.",
     "Upload required documents.", "Submit your appeal."]⟩,
   ⟨"digilocker", "How to Upload to DigiLocker",
    ["Open DigiLocker app.", "Login with your mobile number.",
     "Go to Upload Documents.", "Select and upload your file."]⟩]

def joinPen (ps : List (String × Int × Int)) : String :=
  String.intercalate ", " (ps.map (fun p => p.1 ++ " (₹" ++ toString p.2.1 ++ ")"))

/-- makeEmpatheticReply (lines 165-190). -/
def makeEmpatheticReply (intent : String) (ctx : Option Metrics) : String :=
  if intent = "road_ahead" then
    "Aage sadak thodi kharab hai, kripya dhyaan se chalayein. Agar aapko koi dikkat ho, Sahayata button dabayein."
  else if intent = "earnings" then
    let e := (ctx.map (fun m => m.todayEarnings)).getD 0
    let x := (ctx.map (fun m => m.todayExpenses)).getD 0
    "Aaj aapne ₹" ++ toString e ++ " kamaya aur ₹" ++ toString x ++
      " kharch kiya. Net earning: ₹" ++ toString (e - x) ++ "."
  else if intent = "penalty" then
    match ctx with
    | some m =>
      if m.penalties.length ≠ 0 then
        "Aap par penalty lagi hai: " ++ joinPen m.penalties ++ "."
      else "Aap par koi penalty nahi lagi."
    | none => "Aap par koi penalty nahi lagi."
  else if intent = "business_growth" then
    match ctx with
    | some m =>
      if decide (m.lastWeekEarnings < m.thisWeekEarnings) then
        "Haan, iss hafte aapka business pichle hafte se behtar hai."
      else "Nahi, iss hafte kamai kam hai."
    | none => "Nahi, iss hafte kamai kam hai."
  else if intent = "onboarding" then
    "Onboarding mein madad chahiye? Har field ko dhyan se suno. Galti ho toh main aapko bataunga."
  else if intent = "emergency" then
    "Aapne Sahayata button dabaya hai. Kripya shaant rahiye, madad ke liye call kiya ja raha hai."
  else if intent = "guide_challan" then
    "Challan contest karne ke liye: 1. Traffic website par jao. 2. Challan number daalo. 3. Document upload karo. 4. Appeal submit karo."
  else if intent = "guide_digilocker" then
    "DigiLocker mein document upload karne ke liye: 1. App kholo. 2. Login karo. 3. Upload Documents par jao. 4. File select karke upload karo."
  else if intent = "insurance" then
    "Vehicle insurance aapko bade kharche se bachata hai. Har saal renew karna zaroori hai."
  else if intent = "customer_service" then
    "Customer se hamesha vinamrata se baat karein, samay par delivery karein, aur samaan dhyaan se sambhalein."
  else
    "Maaf kijiye, main aapki madad ke liye yahan hoon. Kripya apna sawaal dobara poochhein."

def numberSteps (steps : List String) : String :=
  String.intercalate "\n" (steps.enum.map (fun p => toString (p.1 + 1) ++ ". " ++ p.2))

/- ===== Domain trigger patterns of the dispatcher (lines 327-449) ===== -/

def roadPats : List String := ["road", "sadak", "route", "weather", "unsafe", "alert"]

/-- earn(ings)? matches exactly when "earn" occurs, so one literal suffices. -/
def earnPats : List String :=
  ["earn", "kamaya", "kitna kamaya", "kharcha", "expenses", "profit"]

def penaltyPats : List String := ["penalty", "penalties"]

def growthPats : List String :=
  ["behtar", "better than last week", "growth", "compare", "summary", "performance"]

/-- onboard|onboarding collapses to the literal "onboard". -/
def onboardPats : List String :=
  ["onboard", "form", "document", "submit", "upload", "kyc", "pan", "aadhaar"]

def emergPats : List String := ["emergency", "help", "sahayata", "danger"]

def challanPats : List String := ["challan"]

def digiPats : List String := ["digilocker"]

def insurPats : List String := ["insurance"]

def custPats : List String := ["customer service", "customer"]

def financePats : List String :=
  ["earn", "kamaya", "kitna kamaya", "kharcha", "expenses", "profit",
   "penalty", "penalties", "reward", "business", "behtar", "better than last week"]

def khPats : List String := ["kharcha", "expenses"]

def rewardPats : List String := ["reward"]

def behtarPats : List String := ["behtar", "better than last week"]

def growth2Pats : List String :=
  ["business", "growth", "behtar", "compare", "summary", "performance"]

def guidePats : List String :=
  ["guide", "kaise", "how to", "tutorial", "sikhaye", "learn", "module",
   "insurance", "challan", "digilocker", "customer service"]

def safetyPats : List String :=
  ["emergency", "help", "sahayata", "suraksha", "danger", "alert", "unsafe",
   "road", "weather"]

def safEmergPats : List String := ["emergency", "help", "sahayata"]

def safRoadPats : List String := ["road", "weather", "unsafe", "alert"]

/- ===== Address extraction of the update_address branch (lines 288-306) ===== -/

/-- Strip one leading case-insensitive "to " connector, re-trimming (line 292). -/
def stripTo (s : List Char) : List Char :=
  if isPreL ("to ").data (lowerL s) then trimL (s.drop 3) else s

/-- Strip one leading case-insensitive "is " connector, re-trimming (line 295). -/
def stripIs (s : List Char) : List Char :=
  if isPreL ("is ").data (lowerL s) then trimL (s.drop 3) else s

/-- Strip one leading ":" connector, re-trimming (line 298). -/
def stripColon (s : List Char) : List Char :=
  if isPreL (":").data s then trimL (s.drop 1) else s

/-- The JS falsy check of line 302: an empty remainder means no address. -/
def emptyToNone (s : List Char) : Option String :=
  if s = [] then none else some (String.mk s)

/-- The connector-stripping pipeline of lines 292-302, applied to the trimmed
    split remainder: strip a leading "to ", then a leading "is ", then a
    leading ":", each at most once and in this order. -/
def stripConnectors (s0 : List Char) : Option String :=
  emptyToNone (stripColon (stripIs (stripTo s0)))

/-- The new address computed by the update_address branch from the utterance
    and the upper-cased tracking id: text.split(trackingId)[1]?.trim(), then
    the connector strips; none when the split finds nothing or the remainder
    is empty (JS falsy check). -/
def extractNewAddr (text tid : String) : Option String :=
  match (splitSecond tid.data text.data).map trimL with
  | none => none
  | some s0 => stripConnectors s0

/- ===== The request handler (aiReply, lines 192-484) ===== -/

structure AiResult where
  status : Nat
  reply : String
  action : String
  sessions : Sessions
  store : List OrderRec
  orderOut : Option OrderRec
deriving DecidableEq, Repr

/-- A 200 response: the branch pushes the assistant reply onto the history
    and answers res.json({reply, action, ...}). -/
def mkOk (ss : Sessions) (uid : String) (hist1 : List Msg) (reply action : String)
    (store : List OrderRec) (payload : Option OrderRec) : AiResult :=
  ⟨200, reply, action, setSession ss uid (hist1 ++ [asstMsg reply]), store, payload⟩

/-- The catch-all of lines 480-483: res.status(500).json({reply: "Internal
    error"}); the user turn already pushed stays in the session. -/
def mkErr (ss : Sessions) (uid : String) (hist1 : List Msg)
    (store : List OrderRec) : AiResult :=
  ⟨500, "Internal error", "", setSession ss uid hist1, store, none⟩

/-- JS truthiness of the optional captured tracking id. -/
def truthy : Option String → Bool
  | none => false
  | some s => !(s = "")

/-- history.slice(-n). -/
def takeRight (n : Nat) (l : List α) : List α := l.drop (l.length - n)

/-- Message normalisation before the Groq chat call (lines 458-463). -/
def normMsg (m : Msg) : Msg :=
  if m.role = "function" then ⟨m.role, m.content, some (m.name.getD "fn")⟩
  else ⟨m.role, m.content, none⟩

/-- JS template defaulting x || "N/A" for optional strings. -/
def orNA : Option String → String
  | some s => if s = "" then "N/A" else s
  | none => "N/A"

def didntGet : String := "Sorry, I didn" ++ apoS ++ "t get that."

def cantProcess : String := "Sorry, I couldn" ++ apoS ++ "t process that right now."

/-- The LLM fallback of lines 451-479: with a backend, forward the last 8
    history turns and relay the reply (missing or empty content degrades to a
    stock line, an API error escapes to the catch-all); without a backend,
    the static apology. -/
def fallbackTail (cfg : Option Backend) (ss : Sessions) (store : List OrderRec)
    (uid : String) (hist1 : List Msg) : AiResult :=
  match cfg with
  | some b =>
    match b.chat ((takeRight 8 hist1).map normMsg) with
    | Except.error _ => mkErr ss uid hist1 store
    | Except.ok c =>
      mkOk ss uid hist1
        (match c with
         | some s => if s = "" then didntGet else s
         | none => didntGet)
        "llm_reply" store none
  | none => mkOk ss uid hist1 cantProcess "fallback" store none

/-- CREATE ORDER branch (lines 207-224). -/
def createStep (cfg : Option Backend) (now : Int) (rand : String) (ss : Sessions)
    (store : List OrderRec) (uid text : String) (hist1 : List Msg) : AiResult :=
  let ex := extractOrderFieldsWithLLM cfg text
  let tid := makeTrackingId now rand
  let o : OrderRec :=
    ⟨ex.customerName, ex.address, ex.item, (if ex.qty = 0 then 1 else ex.qty),
     "created", ex.pickupTime, tid, some (uid, "voice"), now⟩
  match saveOrder o store with
  | none => mkErr ss uid hist1 store
  | some store' =>
    mkOk ss uid hist1 ("Order created. Tracking ID " ++ tid ++ ".")
      "created_order" store' (some o)

/-- TRACK ORDER branch (lines 227-241). -/
def trackStep (ss : Sessions) (store : List OrderRec) (uid : String)
    (hist1 : List Msg) (tid : String) : AiResult :=
  match findByTid store tid with
  | none =>
    mkOk ss uid hist1 ("I couldn" ++ apoS ++ "t find order " ++ tid ++ ".")
      "order_not_found" store none
  | some o =>
    mkOk ss uid hist1
      ("Here are the details for " ++ o.trackingId ++ ": \n        - Customer: " ++
        orNA o.customerName ++ " \n        - Items: " ++
        (if o.item = "" then "N/A" else o.item) ++ " \n        - Address: " ++
        orNA o.address ++ " \n        - Status: " ++ o.status)
      "track_order" store (some o)

/-- NEXT PICKUP branch (lines 244-254). -/
def pickupStep (ss : Sessions) (store : List OrderRec) (uid : String)
    (hist1 : List Msg) : AiResult :=
  match findNextPickup store with
  | none => mkOk ss uid hist1 "You have no upcoming pickups." "no_pickups" store none
  | some nxt =>
    mkOk ss uid hist1
      ("Next pickup: " ++ nxt.item ++ " (" ++ toString nxt.qty ++ ") — " ++
        (match nxt.address with
         | some a => if a = "" then "address not set" else a
         | none => "address not set") ++
        ". Tracking ID " ++ nxt.trackingId ++ ".")
      "next_pickup" store (some nxt)

/-- LIST ORDERS branch (lines 257-262). -/
def listStep (ss : Sessions) (store : List OrderRec) (uid : String)
    (hist1 : List Msg) : AiResult :=
  mkOk ss uid hist1
    (if (recentOrders store).length ≠ 0 then
      "Showing your " ++ toString (recentOrders store).length ++ " most recent orders."
     else "No orders found.")
    "list_orders" store none

/-- CANCEL ORDER branch (lines 265-277). -/
def cancelStep (ss : Sessions) (store : List OrderRec) (uid text : String)
    (hist1 : List Msg) : AiResult :=
  match cancelCap text.data with
  | some cap =>
    match updFirst (fun o => o.trackingId = String.mk cap)
        (fun o => {o with status := "cancelled"}) store with
    | (some o, store') =>
      mkOk ss uid hist1 ("Order " ++ o.trackingId ++ " cancelled.")
        "cancel_order" store' (some o)
    | (none, store') =>
      mkOk ss uid hist1 ("Couldn" ++ apoS ++ "t find order " ++ String.mk cap ++ ".")
        "cancel_order" store' none
  | none =>
    mkOk ss uid hist1
      ("Please provide the order ID to cancel (e.g., " ++ apoS ++
        "Cancel order ORD-abc123" ++ apoS ++ ").")
      "ask_for_order_id" store none

/-- UPDATE ADDRESS branch (lines 280-324). -/
def updAddrStep (ss : Sessions) (store : List OrderRec) (uid text : String)
    (hist1 : List Msg) : AiResult :=
  match scanOrd text.data with
  | none =>
    mkOk ss uid hist1
      ("Please provide the order ID to update the address (e.g., " ++ apoS ++
        "Update address of order ORD-abc123 Pune" ++ apoS ++ ").")
      "ask_for_order_id" store none
  | some m0 =>
    match extractNewAddr text (String.mk (upperL m0)) with
    | none =>
      mkOk ss uid hist1
        ("Please provide the new address after the order ID (e.g., " ++ apoS ++
          "Update address of order " ++ String.mk (upperL m0) ++
          " Pune, Maharashtra" ++ apoS ++ ").")
        "ask_for_address" store none
    | some addr =>
      match updFirst (fun o => o.trackingId = String.mk (upperL m0))
          (fun o => {o with address := some addr}) store with
      | (some o, store') =>
        mkOk ss uid hist1
          (" The address for order " ++ String.mk (upperL m0) ++
            " has been updated to: " ++ orNA o.address)
          "update_address" store' (some o)
      | (none, store') =>
        mkOk ss uid hist1
          ("Sorry, I couldn" ++ apoS ++ "t find order " ++ String.mk (upperL m0) ++ ".")
          "order_not_found" store' none

/-- Conversational-finance branch (lines 382-399). -/
def financeStep (cfg : Option Backend) (now : Int) (ss : Sessions)
    (store : List OrderRec) (uid text : String) (hist1 : List Msg) : AiResult :=
  let m := getBusinessMetrics store now
  let r0 :=
    if anyPat khPats (lowT text) = true then
      "Aaj aapne ₹" ++ toString m.todayEarnings ++ " kamaya aur ₹" ++
        toString m.todayExpenses ++ " kharch kiya. Net earning: ₹" ++
        toString (m.todayEarnings - m.todayExpenses) ++ "."
    else if anyPat penaltyPats (lowT text) = true then
      if m.penalties.length ≠ 0 then
        "Aap par penalty lagi hai: " ++ joinPen m.penalties ++ "."
      else "Aap par koi penalty nahi lagi."
    else if anyPat rewardPats (lowT text) = true then
      if m.rewards.length ≠ 0 then
        "Aapko reward mila hai: " ++ joinPen m.rewards ++ "."
      else "Aapko abhi tak koi reward nahi mila."
    else if anyPat behtarPats (lowT text) = true then
      if decide (m.lastWeekEarnings < m.thisWeekEarnings) then
        "Haan, iss hafte aapka business pichle hafte se behtar hai."
      else "Nahi, iss hafte kamai kam hai."
    else
      "Aaj ki kamai: ₹" ++ toString m.todayEarnings ++ ". Pichle hafte: ₹" ++
        toString m.lastWeekEarnings ++ ". Iss hafte: ₹" ++
        toString m.thisWeekEarnings ++ "."
  mkOk ss uid hist1 (translateToHindi cfg r0) "business_metrics" store none

def onboardMockReply : String :=
  "Onboarding mein madad chahiye? Har field ko dhyan se suno. Example: \"Naam daaliye\". Agar galti ho, main aapko bataunga. Document upload karne ke liye, photo khinch kar yahan bhejiye."

def askGuideReply : String :=
  "Kis topic par guide chahiye? Example: \"How to contest a challan\" ya \"Insurance sikhaye\"."

/-- Business-growth-simplified branch (lines 409-414). -/
def growth2Step (cfg : Option Backend) (now : Int) (ss : Sessions)
    (store : List OrderRec) (uid : String) (hist1 : List Msg) : AiResult :=
  let m := getBusinessMetrics store now
  mkOk ss uid hist1
    (translateToHindi cfg
      ("Aapka business summary: Iss hafte kamai ₹" ++ toString m.thisWeekEarnings ++
        ", pichle hafte ₹" ++ toString m.lastWeekEarnings ++ ". " ++
        (if decide (m.lastWeekEarnings < m.thisWeekEarnings) then
          "Aapne behtar kiya!"
         else "Aapko aur mehnat ki zarurat hai.")))
    "business_summary" store none

/-- Guides-and-learning-modules branch (lines 417-435). -/
def guideStep (cfg : Option Backend) (ss : Sessions) (store : List OrderRec)
    (uid text : String) (hist1 : List Msg) : AiResult :=
  match guides.find? (fun g =>
      hasPat g.id.data (lowT text) || hasPat (lowerL g.title.data) (lowT text)) with
  | some g =>
    mkOk ss uid hist1 (translateToHindi cfg (g.title ++ ":\n" ++ numberSteps g.steps))
      "guide" store none
  | none =>
    match learningModules.find? (fun m =>
        hasPat m.id.data (lowT text) || hasPat (lowerL m.title.data) (lowT text)) with
    | some m =>
      mkOk ss uid hist1 (translateToHindi cfg (m.title ++ ":\n" ++ numberSteps m.steps))
        "learning_module" store none
    | none =>
      mkOk ss uid hist1 (translateToHindi cfg askGuideReply) "ask_for_guide" store none

/-- Safety-alert branch (lines 438-449). -/
def safetyStep (cfg : Option Backend) (ss : Sessions) (store : List OrderRec)
    (uid text : String) (hist1 : List Msg) : AiResult :=
  mkOk ss uid hist1
    (translateToHindi cfg
      (if anyPat safEmergPats (lowT text) = true then
        "Aapne Sahayata button dabaya hai. Kripya shaant rahiye, madad ke liye call kiya ja raha hai."
       else if anyPat safRoadPats (lowT text) = true then
        "Aage sadak kharab hai, kripya dhyaan se chalayein."
       else
        "Suraksha ke liye, hamesha seatbelt pehnein aur traffic niyam maanein."))
    "safety_alert" store none

/-- The whole request handler aiReply as a function of its inputs: backend
    configuration, clock, random slice, session map, order store, user id and
    utterance. Branches are tried in source order; every 200 answer also
    appends the user turn and the assistant turn to the session. -/
def aiReplyFun (cfg : Option Backend) (now : Int) (rand : String) (ss : Sessions)
    (store : List OrderRec) (uid text : String) : AiResult :=
  if (parseIntent text).intent = "create_order" then
    createStep cfg now rand ss store uid text (currentHist ss uid ++ [userMsg text])
  else if (parseIntent text).intent = "track_order" ∧ truthy (parseIntent text).trackingId = true then
    trackStep ss store uid (currentHist ss uid ++ [userMsg text]) (((parseIntent text).trackingId).getD "")
  else if (parseIntent text).intent = "next_pickup" then
    pickupStep ss store uid (currentHist ss uid ++ [userMsg text])
  else if (parseIntent text).intent = "list_orders" then
    listStep ss store uid (currentHist ss uid ++ [userMsg text])
  else if (parseIntent text).intent = "cancel_order" then
    cancelStep ss store uid text (currentHist ss uid ++ [userMsg text])
  else if (parseIntent text).intent = "update_address" then
    updAddrStep ss store uid text (currentHist ss uid ++ [userMsg text])
  else if anyPat roadPats (lowT text) = true then
    mkOk ss uid (currentHist ss uid ++ [userMsg text])
      (makeEmpatheticReply "road_ahead" none) "road_ahead" store none
  else if anyPat earnPats (lowT text) = true then
    mkOk ss uid (currentHist ss uid ++ [userMsg text])
      (makeEmpatheticReply "earnings" (some (getBusinessMetrics store now)))
      "business_metrics" store none
  else if anyPat penaltyPats (lowT text) = true then
    mkOk ss uid (currentHist ss uid ++ [userMsg text])
      (makeEmpatheticReply "penalty" (some (getBusinessMetrics store now)))
      "penalty" store none
  else if anyPat growthPats (lowT text) = true then
    mkOk ss uid (currentHist ss uid ++ [userMsg text])
      (makeEmpatheticReply "business_growth" (some (getBusinessMetrics store now)))
      "business_growth" store none
  else if anyPat onboardPats (lowT text) = true then
    mkOk ss uid (currentHist ss uid ++ [userMsg text])
      (makeEmpatheticReply "onboarding" none) "onboarding_help" store none
  else if anyPat emergPats (lowT text) = true then
    mkOk ss uid (currentHist ss uid ++ [userMsg text])
      (makeEmpatheticReply "emergency" none) "emergency" store none
  else if anyPat challanPats (lowT text) = true then
    mkOk ss uid (currentHist ss uid ++ [userMsg text])
      (makeEmpatheticReply "guide_challan" none) "guide_challan" store none
  else if anyPat digiPats (lowT text) = true then
    mkOk ss uid (currentHist ss uid ++ [userMsg text])
      (makeEmpatheticReply "guide_digilocker" none) "guide_digilocker" store none
  else if anyPat insurPats (lowT text) = true then
    mkOk ss uid (currentHist ss uid ++ [userMsg text])
      (makeEmpatheticReply "insurance" none) "insurance" store none
  else if anyPat custPats (lowT text) = true then
    mkOk ss uid (currentHist ss uid ++ [userMsg text])
      (makeEmpatheticReply "customer_service" none) "customer_service" store none
  else if anyPat financePats (lowT text) = true then
    financeStep cfg now ss store uid text (currentHist ss uid ++ [userMsg text])
  else if anyPat onboardPats (lowT text) = true then
    mkOk ss uid (currentHist ss uid ++ [userMsg text])
      (translateToHindi cfg onboardMockReply) "onboarding_help" store none
  else if anyPat growth2Pats (lowT text) = true then
    growth2Step cfg now ss store uid (currentHist ss uid ++ [userMsg text])
  else if anyPat guidePats (lowT text) = true then
    guideStep cfg ss store uid text (currentHist ss uid ++ [userMsg text])
  else if anyPat safetyPats (lowT text) = true then
    safetyStep cfg ss store uid text (currentHist ss uid ++ [userMsg text])
  else
    fallbackTail cfg ss store uid (currentHist ss uid ++ [userMsg text])

/-- No trigger of any rule-based branch occurs in the text: the request falls
    through to the LLM fallback. -/
def noRulePat (text : String) : Bool :=
  !(anyPat createPats (lowT text)) && (trackCap (lowT text)).isNone &&
  !(anyPat pickupPats (lowT text)) && !(anyPat listPats (lowT text)) &&
  !(anyPat cancelPats (lowT text)) && !(anyPat addrPats (lowT text)) &&
  !(anyPat roadPats (lowT text)) && !(anyPat earnPats (lowT text)) &&
  !(anyPat penaltyPats (lowT text)) && !(anyPat growthPats (lowT text)) &&
  !(anyPat onboardPats (lowT text)) && !(anyPat emergPats (lowT text)) &&
  !(anyPat challanPats (lowT text)) && !(anyPat digiPats (lowT text)) &&
  !(anyPat insurPats (lowT text)) && !(anyPat custPats (lowT text)) &&
  !(anyPat financePats (lowT text)) && !(anyPat growth2Pats (lowT text)) &&
  !(anyPat guidePats (lowT text)) && !(anyPat safetyPats (lowT text))

/-- The intent taxonomy named by the specification. -/
def intentUniverse : List String :=
  ["create_order", "track_order", "next_pickup", "list_orders", "cancel_order",
   "update_address", "road_alert", "earnings", "penalty", "business_growth",
   "onboarding_help", "emergency", "guide_challan", "guide_digilocker",
   "insurance", "customer_service", "general"]

/- ===== Concrete instances and spec-side comparison definitions ===== -/

/-- A backend whose chat call raises (API error / timeout). -/
def errBackend : Backend :=
  ⟨fun _ => none, fun _ => none, fun _ => Except.error ()⟩

/-- A backend whose chat call answers normally. -/
def okBackend : Backend :=
  ⟨fun _ => none, fun _ => none, fun _ => Except.ok (some "Namaste, main madad karta hoon.")⟩

def ordTimed : OrderRec :=
  ⟨none, none, "parcel", 1, "created", some 5, "ORD-A", some ("u", "voice"), 1⟩

def ordNull : OrderRec :=
  ⟨none, none, "box", 1, "created", none, "ORD-B", some ("u", "voice"), 2⟩

def ordA7 : OrderRec :=
  ⟨none, none, "crate", 1, "created", none, "ORD-A7", some ("u", "voice"), 0⟩

/-- Follows the specification wording of the next_pickup ordering, under
    which an order with null pickup time sorts AFTER every order with a
    pickup time; kept only to compare with the code embedding. -/
def specLt (a b : OrderRec) : Bool :=
  match a.pickupTime, b.pickupTime with
  | none, none => decide (a.createdAt < b.createdAt)
  | none, some _ => false
  | some _, none => true
  | some x, some y =>
    decide (x < y) || (decide (x = y) && decide (a.createdAt < b.createdAt))

/-- Follows the specification wording: earliest non-terminal order with null
    pickup times last; kept only to compare with the code embedding. -/
def specNextPickup (store : List OrderRec) : Option OrderRec :=
  (store.filter nonTerminal).foldl
    (fun acc o =>
      match acc with
      | none => some o
      | some b => if specLt o b then some o else some b)
    none

/-- Follows the specification wording of address-update parsing: everything
    after the tracking code, with at most ONE connector stripped; kept only
    to compare with the code embedding. -/
def specAddrOne (text tid : String) : Option String :=
  match firstOcc tid.data text.data with
  | none => none
  | some i =>
    let rest := trimL (text.data.drop (i + tid.data.length))
    let rest2 :=
      if isPreL ("to ").data (lowerL rest) then trimL (rest.drop 3)
      else if isPreL ("is ").data (lowerL rest) then trimL (rest.drop 3)
      else if isPreL (":").data rest then trimL (rest.drop 1)
      else rest
    if rest2 = [] then none else some (String.mk rest2)

/-- Pairwise distinct tracking codes. -/
def distinctCodes (l : List OrderRec) : Prop :=
  (l.map (fun o => o.trackingId)).Pairwise (fun a b => a ≠ b)

/-- No stored order carries an empty address. -/
def noEmptyAddr (l : List OrderRec) : Prop :=
  ∀ o ∈ l, o.address ≠ some ""

/-- Every way the handler can leave the order store: untouched, one new
    document inserted under the unique index, a cancel patch, or an address
    patch with the parsed nonempty address. -/
def StoreCases (cfg : Option Backend) (text : String)
    (store : List OrderRec) (r : AiResult) : Prop :=
  r.store = store ∨
  (∃ o, o.address = (extractOrderFieldsWithLLM cfg text).address ∧
    saveOrder o store = some r.store) ∨
  (∃ tid, r.store = (updFirst (fun o => o.trackingId = tid)
    (fun o => {o with status := "cancelled"}) store).2) ∨
  (∃ tid addr, extractNewAddr text tid = some addr ∧
    r.store = (updFirst (fun o => o.trackingId = tid)
      (fun o => {o with address := some addr}) store).2)

/-- Every 200 answer pushes the user turn and the assistant turn carrying the
    returned reply; every 500 answer leaves the user turn alone. -/
def HistShape (uid : String) (hist1 : List Msg) (r : AiResult) : Prop :=
  (r.status = 200 ∧ lookupSession r.sessions uid = some (hist1 ++ [asstMsg r.reply])) ∨
  (r.status = 500 ∧ lookupSession r.sessions uid = some hist1)

/-- The accumulator step of findNextPickup. -/
def nextStep (acc : Option OrderRec) (o : OrderRec) : Option OrderRec :=
  match acc with
  | none => some o
  | some b => if mongoLt o b then some o else some b

/- ===== The no-space exclusion scheme =====
   A pattern containing a space cannot occur in A ++ B when B is space-free
   and no start position inside A admits it. -/

/-- The pattern agrees with X on their overlap (X a prefix-against window). -/
def overlapOk : List Char → List Char → Bool
  | [], _ => true
  | _ :: _, [] => true
  | a :: as, b :: bs => a == b && overlapOk as bs

/-- Beyond offset k the pattern has no space character. -/
def tailClear (pat : List Char) (k : Nat) : Bool :=
  (pat.drop k).all (fun c => !(c == ' '))

/-- The pattern could occur starting at window X followed by some space-free
    continuation. -/
def fitsAt (pat X : List Char) : Bool := overlapOk pat X && tailClear pat X.length

/-- The shape ORD-[A-Za-z0-9]+ of the glossary. -/
def matchesOrdCode (s : String) : Bool :=
  isPreL (("ORD-").data) s.data && decide (4 < s.data.length) &&
    (s.data.drop 4).all alnum

/- ===== Lemmas: the parseIntent cascade ===== -/

theorem pi_create {text : String} (h : anyPat createPats (lowT text) = true) :
    parseIntent text = ⟨"create_order", none⟩ := by
  unfold parseIntent; simp [h]

theorem pi_track {text : String} {cap : List Char}
    (h1 : anyPat createPats (lowT text) = false)
    (h2 : trackCap (lowT text) = some cap) :
    parseIntent text = ⟨"track_order", some (String.mk cap)⟩ := by
  unfold parseIntent; rw [h1, h2]; simp

theorem pi_pickup {text : String}
    (h1 : anyPat createPats (lowT text) = false)
    (h2 : trackCap (lowT text) = none)
    (h3 : anyPat pickupPats (lowT text) = true) :
    parseIntent text = ⟨"next_pickup", none⟩ := by
  unfold parseIntent; rw [h1, h2]; simp [h3]

theorem pi_list {text : String}
    (h1 : anyPat createPats (lowT text) = false)
    (h2 : trackCap (lowT text) = none)
    (h3 : anyPat pickupPats (lowT text) = false)
    (h4 : anyPat listPats (lowT text) = true) :
    parseIntent text = ⟨"list_orders", none⟩ := by
  unfold parseIntent; rw [h1, h2]; simp [h3, h4]

theorem pi_cancel {text : String}
    (h1 : anyPat createPats (lowT text) = false)
    (h2 : trackCap (lowT text) = none)
    (h3 : anyPat pickupPats (lowT text) = false)
    (h4 : anyPat listPats (lowT text) = false)
    (h5 : anyPat cancelPats (lowT text) = true) :
    parseIntent text = ⟨"cancel_order", none⟩ := by
  unfold parseIntent; rw [h1, h2]; simp [h3, h4, h5]

theorem pi_addr {text : String}
    (h1 : anyPat createPats (lowT text) = false)
    (h2 : trackCap (lowT text) = none)
    (h3 : anyPat pickupPats (lowT text) = false)
    (h4 : anyPat listPats (lowT text) = false)
    (h5 : anyPat cancelPats (lowT text) = false)
    (h6 : anyPat addrPats (lowT text) = true) :
    parseIntent text = ⟨"update_address", none⟩ := by
  unfold parseIntent; rw [h1, h2]; simp [h3, h4, h5, h6]

theorem pi_general {text : String}
    (h1 : anyPat createPats (lowT text) = false)
    (h2 : trackCap (lowT text) = none)
    (h3 : anyPat pickupPats (lowT text) = false)
    (h4 : anyPat listPats (lowT text) = false)
    (h5 : anyPat cancelPats (lowT text) = false)
    (h6 : anyPat addrPats (lowT text) = false) :
    parseIntent text = ⟨"general", none⟩ := by
  unfold parseIntent; rw [h1, h2]; simp [h3, h4, h5, h6]

theorem pi_mem (text : String) : (parseIntent text).intent ∈ intentUniverse := by
  unfold parseIntent
  repeat' split
  all_goals simp [intentUniverse]

theorem pi_tid_track {text : String}
    (h : ((parseIntent text).trackingId).isSome = true) :
    (parseIntent text).intent = "track_order" := by
  unfold parseIntent at h ⊢
  repeat' split at h
  all_goals simp_all

/- ===== Lemmas: session map ===== -/

theorem lookup_set (ss : Sessions) (uid : String) (h : List Msg) :
    lookupSession (setSession ss uid h) uid = some h := by
  induction ss with
  | nil => simp [setSession, lookupSession]
  | cons p tl ih =>
    by_cases hp : p.1 = uid
    · simp [setSession, lookupSession, hp]
    · simp [setSession, lookupSession, hp, ih]

/- ===== Lemmas: shape of every answer ===== -/

theorem histShape_mkOk (ss : Sessions) (uid : String) (hist1 : List Msg)
    (reply action : String) (store : List OrderRec) (p : Option OrderRec) :
    HistShape uid hist1 (mkOk ss uid hist1 reply action store p) := by
  left; exact ⟨rfl, by simp [mkOk, lookup_set]⟩

theorem histShape_mkErr (ss : Sessions) (uid : String) (hist1 : List Msg)
    (store : List OrderRec) :
    HistShape uid hist1 (mkErr ss uid hist1 store) := by
  right; exact ⟨rfl, by simp [mkErr, lookup_set]⟩

theorem histShape_createStep (cfg : Option Backend) (now : Int) (rand : String)
    (ss : Sessions) (store : List OrderRec) (uid text : String) (hist1 : List Msg) :
    HistShape uid hist1 (createStep cfg now rand ss store uid text hist1) := by
  unfold createStep
  dsimp only
  split
  · exact histShape_mkErr ..
  · exact histShape_mkOk ..

theorem histShape_trackStep (ss : Sessions) (store : List OrderRec)
    (uid : String) (hist1 : List Msg) (tid : String) :
    HistShape uid hist1 (trackStep ss store uid hist1 tid) := by
  unfold trackStep
  split
  · exact histShape_mkOk ..
  · exact histShape_mkOk ..

theorem histShape_pickupStep (ss : Sessions) (store : List OrderRec)
    (uid : String) (hist1 : List Msg) :
    HistShape uid hist1 (pickupStep ss store uid hist1) := by
  unfold pickupStep
  split
  · exact histShape_mkOk ..
  · exact histShape_mkOk ..

theorem histShape_listStep (ss : Sessions) (store : List OrderRec)
    (uid : String) (hist1 : List Msg) :
    HistShape uid hist1 (listStep ss store uid hist1) :=
  histShape_mkOk ..

theorem histShape_cancelStep (ss : Sessions) (store : List OrderRec)
    (uid text : String) (hist1 : List Msg) :
    HistShape uid hist1 (cancelStep ss store uid text hist1) := by
  unfold cancelStep
  repeat' split
  all_goals exact histShape_mkOk ..

theorem histShape_updAddrStep (ss : Sessions) (store : List OrderRec)
    (uid text : String) (hist1 : List Msg) :
    HistShape uid hist1 (updAddrStep ss store uid text hist1) := by
  unfold updAddrStep
  repeat' split
  all_goals exact histShape_mkOk ..

theorem histShape_financeStep (cfg : Option Backend) (now : Int) (ss : Sessions)
    (store : List OrderRec) (uid text : String) (hist1 : List Msg) :
    HistShape uid hist1 (financeStep cfg now ss store uid text hist1) :=
  histShape_mkOk ..

theorem histShape_growth2Step (cfg : Option Backend) (now : Int) (ss : Sessions)
    (store : List OrderRec) (uid : String) (hist1 : List Msg) :
    HistShape uid hist1 (growth2Step cfg now ss store uid hist1) :=
  histShape_mkOk ..

theorem histShape_guideStep (cfg : Option Backend) (ss : Sessions)
    (store : List OrderRec) (uid text : String) (hist1 : List Msg) :
    HistShape uid hist1 (guideStep cfg ss store uid text hist1) := by
  unfold guideStep
  repeat' split
  all_goals exact histShape_mkOk ..

theorem histShape_safetyStep (cfg : Option Backend) (ss : Sessions)
    (store : List OrderRec) (uid text : String) (hist1 : List Msg) :
    HistShape uid hist1 (safetyStep cfg ss store uid text hist1) :=
  histShape_mkOk ..

theorem histShape_fallbackTail (cfg : Option Backend) (ss : Sessions)
    (store : List OrderRec) (uid : String) (hist1 : List Msg) :
    HistShape uid hist1 (fallbackTail cfg ss store uid hist1) := by
  unfold fallbackTail
  repeat' split
  all_goals first
    | exact histShape_mkErr ..
    | exact histShape_mkOk ..

theorem histShape_aiReply (cfg : Option Backend) (now : Int) (rand : String)
    (ss : Sessions) (store : List OrderRec) (uid text : String) :
    HistShape uid (currentHist ss uid ++ [userMsg text])
      (aiReplyFun cfg now rand ss store uid text) := by
  unfold aiReplyFun
  generalize currentHist ss uid ++ [userMsg text] = h1
  by_cases c1 : (parseIntent text).intent = "create_order"
  · rw [if_pos c1]; exact histShape_createStep ..
  rw [if_neg c1]
  by_cases c2 : (parseIntent text).intent = "track_order" ∧ truthy (parseIntent text).trackingId = true
  · rw [if_pos c2]; exact histShape_trackStep ..
  rw [if_neg c2]
  by_cases c3 : (parseIntent text).intent = "next_pickup"
  · rw [if_pos c3]; exact histShape_pickupStep ..
  rw [if_neg c3]
  by_cases c4 : (parseIntent text).intent = "list_orders"
  · rw [if_pos c4]; exact histShape_listStep ..
  rw [if_neg c4]
  by_cases c5 : (parseIntent text).intent = "cancel_order"
  · rw [if_pos c5]; exact histShape_cancelStep ..
  rw [if_neg c5]
  by_cases c6 : (parseIntent text).intent = "update_address"
  · rw [if_pos c6]; exact histShape_updAddrStep ..
  rw [if_neg c6]
  by_cases c7 : anyPat roadPats (lowT text) = true
  · rw [if_pos c7]; exact histShape_mkOk ..
  rw [if_neg c7]
  by_cases c8 : anyPat earnPats (lowT text) = true
  · rw [if_pos c8]; exact histShape_mkOk ..
  rw [if_neg c8]
  by_cases c9 : anyPat penaltyPats (lowT text) = true
  · rw [if_pos c9]; exact histShape_mkOk ..
  rw [if_neg c9]
  by_cases c10 : anyPat growthPats (lowT text) = true
  · rw [if_pos c10]; exact histShape_mkOk ..
  rw [if_neg c10]
  by_cases c11 : anyPat onboardPats (lowT text) = true
  · rw [if_pos c11]; exact histShape_mkOk ..
  rw [if_neg c11]
  by_cases c12 : anyPat emergPats (lowT text) = true
  · rw [if_pos c12]; exact histShape_mkOk ..
  rw [if_neg c12]
  by_cases c13 : anyPat challanPats (lowT text) = true
  · rw [if_pos c13]; exact histShape_mkOk ..
  rw [if_neg c13]
  by_cases c14 : anyPat digiPats (lowT text) = true
  · rw [if_pos c14]; exact histShape_mkOk ..
  rw [if_neg c14]
  by_cases c15 : anyPat insurPats (lowT text) = true
  · rw [if_pos c15]; exact histShape_mkOk ..
  rw [if_neg c15]
  by_cases c16 : anyPat custPats (lowT text) = true
  · rw [if_pos c16]; exact histShape_mkOk ..
  rw [if_neg c16]
  by_cases c17 : anyPat financePats (lowT text) = true
  · rw [if_pos c17]; exact histShape_financeStep ..
  rw [if_neg c17]
  by_cases c18 : anyPat onboardPats (lowT text) = true
  · rw [if_pos c18]; exact histShape_mkOk ..
  rw [if_neg c18]
  by_cases c19 : anyPat growth2Pats (lowT text) = true
  · rw [if_pos c19]; exact histShape_growth2Step ..
  rw [if_neg c19]
  by_cases c20 : anyPat guidePats (lowT text) = true
  · rw [if_pos c20]; exact histShape_guideStep ..
  rw [if_neg c20]
  by_cases c21 : anyPat safetyPats (lowT text) = true
  · rw [if_pos c21]; exact histShape_safetyStep ..
  rw [if_neg c21]
  exact histShape_fallbackTail ..

/- ===== Lemmas: reaching the LLM fallback ===== -/

theorem bool_not_true {b : Bool} (h : (!b) = true) : b = false := by
  cases b
  · rfl
  · exact Bool.noConfusion h

theorem reach_fallback {text : String} (h : noRulePat text = true)
    (cfg : Option Backend) (now : Int) (rand : String) (ss : Sessions)
    (store : List OrderRec) (uid : String) :
    aiReplyFun cfg now rand ss store uid text =
      fallbackTail cfg ss store uid (currentHist ss uid ++ [userMsg text]) := by
  unfold noRulePat at h
  simp only [Bool.and_eq_true, and_assoc] at h
  obtain ⟨h1, h2, h3, h4, h5, h6, h7, h8, h9, h10, h11, h12, h13, h14, h15,
    h16, h17, h18, h19, h20⟩ := h
  have hpi := pi_general (bool_not_true h1) (Option.isNone_iff_eq_none.mp h2)
    (bool_not_true h3) (bool_not_true h4) (bool_not_true h5) (bool_not_true h6)
  unfold aiReplyFun
  rw [hpi, bool_not_true h7, bool_not_true h8, bool_not_true h9,
    bool_not_true h10, bool_not_true h11, bool_not_true h12, bool_not_true h13,
    bool_not_true h14, bool_not_true h15, bool_not_true h16, bool_not_true h17,
    bool_not_true h18, bool_not_true h19, bool_not_true h20]
  rfl

/- ===== Lemmas: the Mongo pickup ordering ===== -/

theorem keyLt_irrefl (p : Option Int × Int) : keyLt p p = false := by
  rcases p with ⟨_ | x, ca⟩ <;> simp [keyLt]

theorem keyLt_trans {p q r : Option Int × Int} (h1 : keyLt p q = true)
    (h2 : keyLt q r = true) : keyLt p r = true := by
  rcases p with ⟨_ | x, ca⟩ <;> rcases q with ⟨_ | y, cb⟩ <;>
    rcases r with ⟨_ | z, cc⟩ <;> simp_all [keyLt] <;> omega

theorem keyLt_asym {p q : Option Int × Int} (h : keyLt p q = true) :
    keyLt q p = false := by
  rcases p with ⟨_ | x, ca⟩ <;> rcases q with ⟨_ | y, cb⟩ <;>
    simp_all [keyLt] <;> omega

theorem mlt_irrefl (a : OrderRec) : mongoLt a a = false := keyLt_irrefl _

theorem mlt_trans {a b c : OrderRec} (h1 : mongoLt a b = true)
    (h2 : mongoLt b c = true) : mongoLt a c = true := keyLt_trans h1 h2

theorem mlt_asym {a b : OrderRec} (h : mongoLt a b = true) :
    mongoLt b a = false := keyLt_asym h

theorem findNextPickup_eq_fold (store : List OrderRec) :
    findNextPickup store = (store.filter nonTerminal).foldl nextStep none := by
  unfold findNextPickup nextStep
  rfl

theorem nextStep_isSome (acc : Option OrderRec) (o : OrderRec) :
    (nextStep acc o).isSome = true := by
  unfold nextStep
  cases acc with
  | none => rfl
  | some b =>
    dsimp only
    split <;> rfl

theorem nextFold_isSome {l : List OrderRec} :
    ∀ {acc : Option OrderRec}, acc.isSome = true →
      (l.foldl nextStep acc).isSome = true := by
  induction l with
  | nil => intro acc h; exact h
  | cons x xs ih =>
    intro acc _
    simp only [List.foldl_cons]
    exact ih (nextStep_isSome acc x)

theorem nextFold_none {l : List OrderRec} {acc : Option OrderRec}
    (h : l.foldl nextStep acc = none) : acc = none ∧ l = [] := by
  cases l with
  | nil => exact ⟨h, rfl⟩
  | cons x xs =>
    exfalso
    simp only [List.foldl_cons] at h
    have hs := nextFold_isSome (l := xs) (nextStep_isSome acc x)
    rw [h] at hs
    exact Bool.noConfusion hs

theorem nextFold_min {l : List OrderRec} :
    ∀ {acc : Option OrderRec} {r : OrderRec}, l.foldl nextStep acc = some r →
      (∀ o ∈ l, mongoLt o r = false) ∧
      (∀ b, acc = some b → mongoLt b r = false ∧ (r = b ∨ mongoLt r b = true)) := by
  induction l with
  | nil =>
    intro acc r h
    refine ⟨by simp, ?_⟩
    intro b hb
    rw [hb] at h
    cases h
    exact ⟨mlt_irrefl r, Or.inl rfl⟩
  | cons x xs ih =>
    intro acc r h
    simp only [List.foldl_cons] at h
    obtain ⟨hall, hacc⟩ := ih h
    have hx : nextStep acc x = some x ∨
        ∃ b, acc = some b ∧ mongoLt x b = false ∧ nextStep acc x = some b := by
      unfold nextStep
      cases acc with
      | none => exact Or.inl rfl
      | some b =>
        dsimp only
        by_cases hlt : mongoLt x b = true
        · rw [if_pos hlt]
          exact Or.inl rfl
        · rw [if_neg hlt]
          exact Or.inr ⟨b, rfl, Bool.eq_false_iff.mpr hlt, rfl⟩
    rcases hx with hx | ⟨b, hb, hxb, hstep⟩
    · -- the new element x became the accumulator
      have hxr := hacc x hx
      constructor
      · intro o ho
        rcases List.mem_cons.mp ho with rfl | ho
        · exact hxr.1
        · exact hall o ho
      · intro b hb
        subst hb
        have hstep' : nextStep (some b) x = some x := hx
        unfold nextStep at hstep'
        dsimp only at hstep'
        by_cases hlt : mongoLt x b = true
        · refine ⟨?_, ?_⟩
          · rcases hxr.2 with rfl | hrx
            · exact mlt_asym hlt
            · exact mlt_asym (mlt_trans hrx hlt)
          · rcases hxr.2 with rfl | hrx
            · exact Or.inr hlt
            · exact Or.inr (mlt_trans hrx hlt)
        · rw [if_neg hlt] at hstep'
          cases hstep'
          exact hxr
    · -- the accumulator b survived the comparison with x
      have hbr := hacc b hstep
      constructor
      · intro o ho
        rcases List.mem_cons.mp ho with rfl | ho
        · rcases hbr.2 with rfl | hrb
          · exact hxb
          · cases hor : mongoLt o r with
            | false => rfl
            | true =>
              have h1 := mlt_trans hor hrb
              rw [hxb] at h1
              exact Bool.noConfusion h1
        · exact hall o ho
      · intro b' hb'
        rw [hb] at hb'
        cases hb'
        exact hbr

theorem nextFold_mem {l : List OrderRec} :
    ∀ {acc : Option OrderRec} {r : OrderRec}, l.foldl nextStep acc = some r →
      r ∈ l ∨ acc = some r := by
  induction l with
  | nil => intro acc r h; exact Or.inr h
  | cons x xs ih =>
    intro acc r h
    simp only [List.foldl_cons] at h
    rcases ih h with hm | hs
    · exact Or.inl (List.mem_cons_of_mem _ hm)
    · unfold nextStep at hs
      cases acc with
      | none =>
        cases hs
        exact Or.inl (List.mem_cons_self _ _)
      | some b =>
        dsimp only at hs
        by_cases hlt : mongoLt x b = true
        · rw [if_pos hlt] at hs
          cases hs
          exact Or.inl (List.mem_cons_self _ _)
        · rw [if_neg hlt] at hs
          exact Or.inr hs

theorem findNextPickup_spec {store : List OrderRec} {r : OrderRec}
    (h : findNextPickup store = some r) :
    r ∈ store ∧ nonTerminal r = true ∧
      ∀ o ∈ store, nonTerminal o = true → mongoLt o r = false := by
  rw [findNextPickup_eq_fold] at h
  have hmem : r ∈ store.filter nonTerminal := by
    rcases nextFold_mem h with hm | hs
    · exact hm
    · exact Option.noConfusion hs
  have hmin := (nextFold_min h).1
  refine ⟨(List.mem_filter.mp hmem).1, (List.mem_filter.mp hmem).2, ?_⟩
  intro o ho hnt
  exact hmin o (List.mem_filter.mpr ⟨ho, hnt⟩)

/- ===== Lemmas: updFirst and saveOrder ===== -/

theorem updFirst_not_found {p : OrderRec → Bool} {f : OrderRec → OrderRec}
    {l : List OrderRec} (h : ∀ o ∈ l, p o = false) : updFirst p f l = (none, l) := by
  induction l with
  | nil => rfl
  | cons x xs ih =>
    unfold updFirst
    rw [h x (List.mem_cons_self x xs)]
    simp only [Bool.false_eq_true, if_false]
    rw [ih (fun o ho => h o (List.mem_cons_of_mem x ho))]

theorem updFirst_mem {p : OrderRec → Bool} {f : OrderRec → OrderRec} :
    ∀ {l : List OrderRec} {x : OrderRec}, x ∈ (updFirst p f l).2 →
      x ∈ l ∨ ∃ o ∈ l, x = f o := by
  intro l
  induction l with
  | nil => intro x hx; exact absurd hx (by simp [updFirst])
  | cons y ys ih =>
    intro x hx
    unfold updFirst at hx
    by_cases hp : p y = true
    · rw [if_pos hp] at hx
      rcases List.mem_cons.mp hx with rfl | hx
      · exact Or.inr ⟨y, List.mem_cons_self y ys, rfl⟩
      · exact Or.inl (List.mem_cons_of_mem y hx)
    · rw [if_neg hp] at hx
      rcases List.mem_cons.mp hx with rfl | hx
      · exact Or.inl (List.mem_cons_self x ys)
      · rcases ih hx with hm | ⟨o, ho, rfl⟩
        · exact Or.inl (List.mem_cons_of_mem y hm)
        · exact Or.inr ⟨o, List.mem_cons_of_mem y ho, rfl⟩

/- ===== Lemmas: substring occurrence ===== -/

theorem hasPat_cons {pat : List Char} {c : Char} {tl : List Char} :
    hasPat pat (c :: tl) = (isPreL pat (c :: tl) || hasPat pat tl) := rfl

theorem hasPat_iff {pat : List Char} : ∀ {l : List Char},
    hasPat pat l = true ↔ ∃ s, isPreL pat (l.drop s) = true := by
  intro l
  induction l with
  | nil =>
    constructor
    · intro h
      exact ⟨0, h⟩
    · intro ⟨s, hs⟩
      simpa using hs
  | cons c tl ih =>
    constructor
    · intro h
      rw [hasPat_cons] at h
      simp only [Bool.or_eq_true] at h
      rcases h with h0 | htl
      · exact ⟨0, h0⟩
      · obtain ⟨s, hs⟩ := ih.mp htl
        exact ⟨s + 1, hs⟩
    · intro ⟨s, hs⟩
      rw [hasPat_cons]
      simp only [Bool.or_eq_true]
      cases s with
      | zero => exact Or.inl hs
      | succ s => exact Or.inr (ih.mpr ⟨s, hs⟩)

theorem isPreL_append_of {pat : List Char} : ∀ {A B : List Char},
    isPreL pat A = true → isPreL pat (A ++ B) = true := by
  induction pat with
  | nil => intro A B _; rfl
  | cons a as ih =>
    intro A B h
    cases A with
    | nil => exact Bool.noConfusion h
    | cons b bs =>
      simp only [isPreL, Bool.and_eq_true] at h ⊢
      exact ⟨h.1, ih h.2⟩

theorem hasPat_of_isPreL {pat l : List Char} (h : isPreL pat l = true) :
    hasPat pat l = true := by
  cases l with
  | nil => exact h
  | cons c tl =>
    rw [hasPat_cons, h]
    rfl

theorem isPreL_all {p : Char → Bool} {pat : List Char} : ∀ {l : List Char},
    isPreL pat l = true → l.all p = true → pat.all p = true := by
  induction pat with
  | nil => intro l _ _; rfl
  | cons a as ih =>
    intro l h hl
    cases l with
    | nil => exact Bool.noConfusion h
    | cons b bs =>
      simp only [isPreL, Bool.and_eq_true] at h
      simp only [List.all_cons, Bool.and_eq_true] at hl ⊢
      refine ⟨?_, ih h.2 hl.2⟩
      rw [eq_of_beq h.1]
      exact hl.1

theorem fitsAt_parts {pat X : List Char} (h : fitsAt pat X = true) :
    overlapOk pat X = true ∧ tailClear pat X.length = true := by
  unfold fitsAt at h
  simp only [Bool.and_eq_true] at h
  exact h

theorem isPreL_append_fits {B : List Char}
    (hB : B.all (fun c => !(c == ' ')) = true) :
    ∀ {pat X : List Char}, isPreL pat (X ++ B) = true → fitsAt pat X = true := by
  intro pat
  induction pat with
  | nil =>
    intro X _
    cases X <;> rfl
  | cons a as ih =>
    intro X h
    cases X with
    | nil =>
      simp only [List.nil_append] at h
      unfold fitsAt overlapOk tailClear
      simp only [Bool.true_and, List.length_nil, List.drop_zero]
      exact isPreL_all h hB
    | cons b bs =>
      simp only [List.cons_append, isPreL, Bool.and_eq_true] at h
      have hfit := fitsAt_parts (ih h.2)
      unfold fitsAt
      rw [Bool.and_eq_true]
      constructor
      · show (a == b && overlapOk as bs) = true
        rw [Bool.and_eq_true]
        exact ⟨h.1, hfit.1⟩
      · show tailClear (a :: as) (bs.length + 1) = true
        unfold tailClear
        rw [List.drop_succ_cons]
        exact hfit.2

theorem all_drop {p : Char → Bool} {l : List Char} (h : l.all p = true) (k : Nat) :
    (l.drop k).all p = true := by
  rw [List.all_eq_true] at h ⊢
  intro x hx
  exact h x (List.drop_subset k l hx)

theorem hasPat_append_false (pat A B : List Char)
    (hB : B.all (fun c => !(c == ' ')) = true)
    (hall : (List.range (A.length + 1)).all (fun s => !(fitsAt pat (A.drop s))) = true) :
    hasPat pat (A ++ B) = false := by
  cases hocc : hasPat pat (A ++ B) with
  | false => rfl
  | true =>
    exfalso
    obtain ⟨s, hs⟩ := hasPat_iff.mp hocc
    rw [List.drop_append_eq_append_drop] at hs
    have hdropA : A.drop s = A.drop (min s A.length) := by
      rcases Nat.le_total s A.length with hle | hle
      · rw [Nat.min_eq_left hle]
      · rw [Nat.min_eq_right hle, List.drop_eq_nil_of_le hle,
          List.drop_eq_nil_of_le (Nat.le_refl _)]
    rw [hdropA] at hs
    have hfit := isPreL_append_fits (all_drop hB (s - A.length)) hs
    have hmem : min s A.length ∈ List.range (A.length + 1) :=
      List.mem_range.mpr (Nat.lt_succ_of_le (Nat.min_le_right s A.length))
    have := (List.all_eq_true.mp hall) _ hmem
    rw [hfit] at this
    exact Bool.noConfusion this

/- ===== Scanner vacuity lemmas ===== -/

theorem scanTrack_none : ∀ {l : List Char},
    hasPat (("track ").data) l = false → scanTrack l = none := by
  intro l
  induction l with
  | nil => intro _; rfl
  | cons c tl ih =>
    intro h
    rw [hasPat_cons] at h
    have h0 : isPreL (("track ").data) (c :: tl) = false :=
      (Bool.or_eq_false_iff.mp h).1
    have htl := (Bool.or_eq_false_iff.mp h).2
    unfold scanTrack trackAt
    rw [h0]
    simp only [Bool.false_eq_true, if_false]
    exact ih htl

theorem scanLitCap_none {lit : List Char} {cls : Char → Bool} : ∀ {l : List Char},
    hasPat lit l = false → scanLitCap lit cls l = none := by
  intro l
  induction l with
  | nil => intro _; rfl
  | cons c tl ih =>
    intro h
    rw [hasPat_cons] at h
    unfold scanLitCap
    rw [(Bool.or_eq_false_iff.mp h).1]
    simp only [Bool.false_and, Bool.false_eq_true, if_false]
    exact ih (Bool.or_eq_false_iff.mp h).2

theorem cancelCap_none : ∀ {l : List Char},
    hasPat (("cancel order ").data) (lowerL l) = false → cancelCap l = none := by
  intro l
  induction l with
  | nil => intro _; rfl
  | cons c tl ih =>
    intro h
    have hl : lowerL (c :: tl) = lowChar c :: lowerL tl := rfl
    rw [hl, hasPat_cons] at h
    unfold cancelCap
    rw [show lowerL (c :: tl) = lowChar c :: lowerL tl from rfl] at *
    rw [(Bool.or_eq_false_iff.mp h).1]
    simp only [Bool.false_and, Bool.false_eq_true, if_false]
    exact ih (Bool.or_eq_false_iff.mp h).2

/- ===== Lemmas: case maps and character classes ===== -/

theorem data_append (a b : String) : (a ++ b).data = a.data ++ b.data := rfl

theorem lowT_append (a b : String) : lowT (a ++ b) = lowT a ++ lowT b := by
  unfold lowT lowerL
  rw [data_append, List.map_append]

theorem lowChar_not_space {c : Char} (h : alnumDash c = true) :
    (!(lowChar c == ' ')) = true := by
  unfold lowChar
  cases hf : casePairs.find? (fun p => p.1 == c) with
  | none =>
    simp only [Option.map_none', Option.getD_none]
    by_cases hc : c = ' '
    · subst hc
      exact absurd h (by decide)
    · simpa using hc
  | some p =>
    have hmem := List.mem_of_find?_eq_some hf
    have hall : ∀ q ∈ casePairs, (!(q.2 == ' ')) = true := by decide
    simp only [Option.map_some', Option.getD_some]
    exact hall p hmem

theorem upChar_alnum {c : Char} (h : alnum c = true) :
    alnum (upChar c) = true := by
  unfold upChar
  cases hf : casePairs.find? (fun p => p.2 == c) with
  | none => simpa using h
  | some p =>
    have hmem := List.mem_of_find?_eq_some hf
    have hall : ∀ q ∈ casePairs, alnum q.1 = true := by decide
    simp only [Option.map_some', Option.getD_some]
    exact hall p hmem

theorem lowerL_not_space {l : List Char} (h : l.all alnumDash = true) :
    (lowerL l).all (fun c => !(c == ' ')) = true := by
  unfold lowerL
  rw [List.all_map]
  rw [List.all_eq_true] at h ⊢
  intro x hx
  exact lowChar_not_space (h x hx)

theorem upperL_alnum {l : List Char} (h : l.all alnum = true) :
    (upperL l).all alnum = true := by
  unfold upperL
  rw [List.all_map]
  rw [List.all_eq_true] at h ⊢
  intro x hx
  exact upChar_alnum (h x hx)

/- ===== Lemmas: base36 rendering and tracking-code format ===== -/

theorem base36Digit_alnum (n : Nat) : alnum (base36Digit n) = true := by
  unfold base36Digit
  by_cases hn : n < base36Digits.length
  · rw [List.getD_eq_getElem _ _ hn]
    have hall : ∀ x ∈ base36Digits, alnum x = true := by decide
    exact hall _ (List.getElem_mem _)
  · rw [List.getD_eq_default _ _ (Nat.le_of_not_lt hn)]
    decide

theorem toBase36Aux_alnum : ∀ fuel n, (toBase36Aux fuel n).all alnum = true := by
  intro fuel
  induction fuel with
  | zero => intro n; rfl
  | succ f ih =>
    intro n
    cases n with
    | zero => rfl
    | succ m =>
      unfold toBase36Aux
      rw [List.all_append]
      simp [ih, base36Digit_alnum]

theorem natToBase36_alnum (n : Nat) : (natToBase36 n).all alnum = true := by
  unfold natToBase36
  split
  · decide
  · exact toBase36Aux_alnum _ _

theorem natToBase36_ne_nil (n : Nat) : natToBase36 n ≠ [] := by
  unfold natToBase36
  split
  · simp
  · rename_i hn
    cases n with
    | zero => exact absurd rfl hn
    | succ m =>
      unfold toBase36Aux
      simp

theorem makeTrackingId_data (now : Int) (rand : String) :
    (makeTrackingId now rand).data =
      ("ORD-").data ++ (natToBase36 now.toNat ++ upperL rand.data) := by
  unfold makeTrackingId
  rw [data_append, data_append]
  rw [List.append_assoc]

theorem makeTrackingId_format (now : Int) {rand : String}
    (h : rand.data.all alnum = true) :
    matchesOrdCode (makeTrackingId now rand) = true := by
  unfold matchesOrdCode
  rw [makeTrackingId_data]
  simp only [Bool.and_eq_true]
  refine ⟨⟨?_, ?_⟩, ?_⟩
  · exact isPreL_append_of (by decide)
  · rw [List.length_append, List.length_append]
    have h1 : 0 < (natToBase36 now.toNat).length :=
      List.length_pos.mpr (natToBase36_ne_nil _)
    simp only [decide_eq_true_eq, List.length_cons, List.length_nil]
    omega
  · have hdrop : (("ORD-").data ++ (natToBase36 now.toNat ++ upperL rand.data)).drop 4 =
        natToBase36 now.toNat ++ upperL rand.data := by
      rw [List.drop_append_eq_append_drop]
      rfl
    rw [hdrop, List.all_append]
    simp [natToBase36_alnum, upperL_alnum h]

/- ===== Lemmas: utterances of the shape "delete order <id>" ===== -/

theorem noPat_delete (pat : String) {lid : List Char}
    (hB : lid.all (fun c => !(c == ' ')) = true)
    (hall : (List.range ((("delete order ").data).length + 1)).all
      (fun s => !(fitsAt pat.data (((("delete order ").data)).drop s))) = true) :
    hasPat pat.data ((("delete order ").data) ++ lid) = false :=
  hasPat_append_false pat.data _ lid hB hall

theorem delete_order_lowT (id : String) :
    lowT ("delete order " ++ id) = (("delete order ").data) ++ lowerL id.data := by
  rw [lowT_append]
  rfl

/- ===== Lemmas: the store cases sweep ===== -/

theorem storeCases_mkOk_same (cfg : Option Backend) (text : String)
    (ss : Sessions) (uid : String) (hist1 : List Msg) (reply action : String)
    (store : List OrderRec) (p : Option OrderRec) :
    StoreCases cfg text store (mkOk ss uid hist1 reply action store p) :=
  Or.inl rfl

theorem storeCases_mkErr_same (cfg : Option Backend) (text : String)
    (ss : Sessions) (uid : String) (hist1 : List Msg) (store : List OrderRec) :
    StoreCases cfg text store (mkErr ss uid hist1 store) :=
  Or.inl rfl

theorem storeCases_createStep (cfg : Option Backend) (now : Int) (rand : String)
    (ss : Sessions) (store : List OrderRec) (uid text : String) (hist1 : List Msg) :
    StoreCases cfg text store (createStep cfg now rand ss store uid text hist1) := by
  unfold createStep
  dsimp only
  split
  · exact Or.inl rfl
  · rename_i store' hsave
    exact Or.inr (Or.inl ⟨_, rfl, hsave⟩)

theorem storeCases_cancelStep (cfg : Option Backend) (ss : Sessions)
    (store : List OrderRec) (uid text : String) (hist1 : List Msg) :
    StoreCases cfg text store (cancelStep ss store uid text hist1) := by
  unfold cancelStep
  split
  · rename_i cap hcap
    split
    · rename_i o store' hupd
      refine Or.inr (Or.inr (Or.inl ⟨String.mk cap, ?_⟩))
      show store' = _
      rw [hupd]
    · rename_i store' hupd
      refine Or.inr (Or.inr (Or.inl ⟨String.mk cap, ?_⟩))
      show store' = _
      rw [hupd]
  · exact Or.inl rfl

theorem storeCases_updAddrStep (cfg : Option Backend) (ss : Sessions)
    (store : List OrderRec) (uid text : String) (hist1 : List Msg) :
    StoreCases cfg text store (updAddrStep ss store uid text hist1) := by
  unfold updAddrStep
  split
  · exact Or.inl rfl
  · rename_i m0 hm0
    split
    · exact Or.inl rfl
    · rename_i addr haddr
      split
      · rename_i o store' hupd
        refine Or.inr (Or.inr (Or.inr ⟨String.mk (upperL m0), addr, haddr, ?_⟩))
        show store' = _
        rw [hupd]
      · rename_i store' hupd
        refine Or.inr (Or.inr (Or.inr ⟨String.mk (upperL m0), addr, haddr, ?_⟩))
        show store' = _
        rw [hupd]

theorem storeCases_fallbackTail (cfg : Option Backend) (text : String)
    (ss : Sessions) (store : List OrderRec) (uid : String) (hist1 : List Msg) :
    StoreCases cfg text store (fallbackTail cfg ss store uid hist1) := by
  unfold fallbackTail
  repeat' split
  all_goals exact Or.inl rfl

theorem storeCases_trackStep (cfg : Option Backend) (text : String) (ss : Sessions)
    (store : List OrderRec) (uid : String) (hist1 : List Msg) (tid : String) :
    StoreCases cfg text store (trackStep ss store uid hist1 tid) := by
  unfold trackStep
  split
  · exact Or.inl rfl
  · exact Or.inl rfl

theorem storeCases_pickupStep (cfg : Option Backend) (text : String) (ss : Sessions)
    (store : List OrderRec) (uid : String) (hist1 : List Msg) :
    StoreCases cfg text store (pickupStep ss store uid hist1) := by
  unfold pickupStep
  split
  · exact Or.inl rfl
  · exact Or.inl rfl

theorem storeCases_listStep (cfg : Option Backend) (text : String) (ss : Sessions)
    (store : List OrderRec) (uid : String) (hist1 : List Msg) :
    StoreCases cfg text store (listStep ss store uid hist1) :=
  Or.inl rfl

theorem storeCases_financeStep (cfg : Option Backend) (now : Int) (ss : Sessions)
    (store : List OrderRec) (uid text : String) (hist1 : List Msg) :
    StoreCases cfg text store (financeStep cfg now ss store uid text hist1) :=
  Or.inl rfl

theorem storeCases_growth2Step (cfg : Option Backend) (now : Int) (ss : Sessions)
    (store : List OrderRec) (uid text : String) (hist1 : List Msg) :
    StoreCases cfg text store (growth2Step cfg now ss store uid hist1) :=
  Or.inl rfl

theorem storeCases_guideStep (cfg : Option Backend) (ss : Sessions)
    (store : List OrderRec) (uid text : String) (hist1 : List Msg) :
    StoreCases cfg text store (guideStep cfg ss store uid text hist1) := by
  unfold guideStep
  repeat' split
  all_goals exact Or.inl rfl

theorem storeCases_safetyStep (cfg : Option Backend) (ss : Sessions)
    (store : List OrderRec) (uid text : String) (hist1 : List Msg) :
    StoreCases cfg text store (safetyStep cfg ss store uid text hist1) :=
  Or.inl rfl

theorem storeCases_aiReply (cfg : Option Backend) (now : Int) (rand : String)
    (ss : Sessions) (store : List OrderRec) (uid text : String) :
    StoreCases cfg text store (aiReplyFun cfg now rand ss store uid text) := by
  unfold aiReplyFun
  generalize currentHist ss uid ++ [userMsg text] = h1
  by_cases c1 : (parseIntent text).intent = "create_order"
  · rw [if_pos c1]; exact storeCases_createStep ..
  rw [if_neg c1]
  by_cases c2 : (parseIntent text).intent = "track_order" ∧ truthy (parseIntent text).trackingId = true
  · rw [if_pos c2]; exact storeCases_trackStep ..
  rw [if_neg c2]
  by_cases c3 : (parseIntent text).intent = "next_pickup"
  · rw [if_pos c3]; exact storeCases_pickupStep ..
  rw [if_neg c3]
  by_cases c4 : (parseIntent text).intent = "list_orders"
  · rw [if_pos c4]; exact storeCases_listStep ..
  rw [if_neg c4]
  by_cases c5 : (parseIntent text).intent = "cancel_order"
  · rw [if_pos c5]; exact storeCases_cancelStep ..
  rw [if_neg c5]
  by_cases c6 : (parseIntent text).intent = "update_address"
  · rw [if_pos c6]; exact storeCases_updAddrStep ..
  rw [if_neg c6]
  by_cases c7 : anyPat roadPats (lowT text) = true
  · rw [if_pos c7]; exact storeCases_mkOk_same ..
  rw [if_neg c7]
  by_cases c8 : anyPat earnPats (lowT text) = true
  · rw [if_pos c8]; exact storeCases_mkOk_same ..
  rw [if_neg c8]
  by_cases c9 : anyPat penaltyPats (lowT text) = true
  · rw [if_pos c9]; exact storeCases_mkOk_same ..
  rw [if_neg c9]
  by_cases c10 : anyPat growthPats (lowT text) = true
  · rw [if_pos c10]; exact storeCases_mkOk_same ..
  rw [if_neg c10]
  by_cases c11 : anyPat onboardPats (lowT text) = true
  · rw [if_pos c11]; exact storeCases_mkOk_same ..
  rw [if_neg c11]
  by_cases c12 : anyPat emergPats (lowT text) = true
  · rw [if_pos c12]; exact storeCases_mkOk_same ..
  rw [if_neg c12]
  by_cases c13 : anyPat challanPats (lowT text) = true
  · rw [if_pos c13]; exact storeCases_mkOk_same ..
  rw [if_neg c13]
  by_cases c14 : anyPat digiPats (lowT text) = true
  · rw [if_pos c14]; exact storeCases_mkOk_same ..
  rw [if_neg c14]
  by_cases c15 : anyPat insurPats (lowT text) = true
  · rw [if_pos c15]; exact storeCases_mkOk_same ..
  rw [if_neg c15]
  by_cases c16 : anyPat custPats (lowT text) = true
  · rw [if_pos c16]; exact storeCases_mkOk_same ..
  rw [if_neg c16]
  by_cases c17 : anyPat financePats (lowT text) = true
  · rw [if_pos c17]; exact storeCases_financeStep ..
  rw [if_neg c17]
  by_cases c18 : anyPat onboardPats (lowT text) = true
  · rw [if_pos c18]; exact storeCases_mkOk_same ..
  rw [if_neg c18]
  by_cases c19 : anyPat growth2Pats (lowT text) = true
  · rw [if_pos c19]; exact storeCases_growth2Step ..
  rw [if_neg c19]
  by_cases c20 : anyPat guidePats (lowT text) = true
  · rw [if_pos c20]; exact storeCases_guideStep ..
  rw [if_neg c20]
  by_cases c21 : anyPat safetyPats (lowT text) = true
  · rw [if_pos c21]; exact storeCases_safetyStep ..
  rw [if_neg c21]
  exact storeCases_fallbackTail ..

/- ===== Lemmas: invariants carried by the store ===== -/

theorem extract_addr_ne (cfg : Option Backend) (text : String) :
    (extractOrderFieldsWithLLM cfg text).address ≠ some "" := by
  unfold extractOrderFieldsWithLLM
  cases cfg with
  | none => simp
  | some b =>
    cases hbe : b.extract text with
    | none => simp [hbe]
    | some raw =>
      simp only [hbe]
      cases hra : raw.address with
      | none => simp [hra, Option.filter]
      | some s =>
        simp only [hra, Option.filter]
        split
        · rename_i hs
          simp only [decide_not, Bool.not_eq_true', decide_eq_false_iff_not] at hs
          intro hc
          cases hc
          exact hs rfl
        · simp

theorem saveOrder_some {o : OrderRec} {store st' : List OrderRec}
    (h : saveOrder o store = some st') :
    st' = store ++ [o] ∧ ∀ x ∈ store, ¬(x.trackingId = o.trackingId) := by
  unfold saveOrder at h
  split at h
  · exact Option.noConfusion h
  · rename_i hany
    cases h
    refine ⟨rfl, ?_⟩
    intro x hx
    rw [Bool.not_eq_true, List.any_eq_false] at hany
    have := hany x hx
    simpa using this

theorem saveOrder_dup {o : OrderRec} {store : List OrderRec} {x : OrderRec}
    (hx : x ∈ store) (h : x.trackingId = o.trackingId) :
    saveOrder o store = none := by
  unfold saveOrder
  rw [if_pos]
  rw [List.any_eq_true]
  exact ⟨x, hx, by simpa using h⟩

theorem updFirst_map_tid {p : OrderRec → Bool} {f : OrderRec → OrderRec}
    (hf : ∀ x, (f x).trackingId = x.trackingId) :
    ∀ l : List OrderRec,
      ((updFirst p f l).2).map (fun o => o.trackingId) =
        l.map (fun o => o.trackingId) := by
  intro l
  induction l with
  | nil => rfl
  | cons x xs ih =>
    unfold updFirst
    by_cases hp : p x = true
    · rw [if_pos hp]
      simp only [List.map_cons, hf]
    · rw [if_neg hp]
      dsimp only
      simp only [List.map_cons]
      rw [ih]

theorem distinct_append {store : List OrderRec} {o : OrderRec}
    (hd : distinctCodes store)
    (hfresh : ∀ x ∈ store, ¬(x.trackingId = o.trackingId)) :
    distinctCodes (store ++ [o]) := by
  unfold distinctCodes at hd ⊢
  rw [List.map_append, List.pairwise_append]
  refine ⟨hd, by simp, ?_⟩
  intro a ha b hb
  simp only [List.map_cons, List.map_nil, List.mem_singleton] at hb
  subst hb
  obtain ⟨x, hx, rfl⟩ := List.mem_map.mp ha
  exact hfresh x hx

theorem distinctCodes_of_map_eq {l l' : List OrderRec}
    (h : l'.map (fun o => o.trackingId) = l.map (fun o => o.trackingId))
    (hd : distinctCodes l) : distinctCodes l' := by
  unfold distinctCodes at hd ⊢
  rw [h]
  exact hd

theorem mk_ne_empty {s : List Char} (h : s ≠ []) : String.mk s ≠ "" := by
  intro hc
  exact h (congrArg String.data hc)

theorem emptyToNone_some_ne {s : List Char} {a : String}
    (h : emptyToNone s = some a) : a ≠ "" := by
  unfold emptyToNone at h
  split at h
  · exact Option.noConfusion h
  · rename_i hne
    cases h
    exact mk_ne_empty hne

theorem extractNewAddr_some_ne {text tid : String} {a : String}
    (h : extractNewAddr text tid = some a) : a ≠ "" := by
  unfold extractNewAddr at h
  split at h
  · exact Option.noConfusion h
  · exact emptyToNone_some_ne h

/-- The distinct-tracking-code invariant survives every request. -/
theorem distinct_invariant (cfg : Option Backend) (now : Int) (rand : String)
    (ss : Sessions) (store : List OrderRec) (uid text : String)
    (hd : distinctCodes store) :
    distinctCodes (aiReplyFun cfg now rand ss store uid text).store := by
  rcases storeCases_aiReply cfg now rand ss store uid text with hsame |
    ⟨o, _, hsave⟩ | ⟨tid, hupd⟩ | ⟨tid, addr, _, hupd⟩
  · rw [hsame]; exact hd
  · obtain ⟨heq, hfresh⟩ := saveOrder_some hsave
    rw [heq]
    exact distinct_append hd hfresh
  · rw [hupd]
    exact distinctCodes_of_map_eq
      (@updFirst_map_tid (fun o => decide (o.trackingId = tid))
        (fun o => {o with status := "cancelled"}) (fun x => rfl) store) hd
  · rw [hupd]
    exact distinctCodes_of_map_eq
      (@updFirst_map_tid (fun o => decide (o.trackingId = tid))
        (fun o => {o with address := some addr}) (fun x => rfl) store) hd

/-- The no-empty-address invariant survives every request. -/
theorem noEmptyAddr_invariant (cfg : Option Backend) (now : Int) (rand : String)
    (ss : Sessions) (store : List OrderRec) (uid text : String)
    (hd : noEmptyAddr store) :
    noEmptyAddr (aiReplyFun cfg now rand ss store uid text).store := by
  rcases storeCases_aiReply cfg now rand ss store uid text with hsame |
    ⟨o, haddr, hsave⟩ | ⟨tid, hupd⟩ | ⟨tid, addr, hext, hupd⟩
  · rw [hsame]; exact hd
  · obtain ⟨heq, _⟩ := saveOrder_some hsave
    rw [heq]
    intro x hx
    rcases List.mem_append.mp hx with hx | hx
    · exact hd x hx
    · rw [List.mem_singleton] at hx
      subst hx
      rw [haddr]
      exact extract_addr_ne cfg text
  · rw [hupd]
    intro x hx
    rcases updFirst_mem hx with hm | ⟨o, ho, rfl⟩
    · exact hd x hm
    · exact hd o ho
  · rw [hupd]
    intro x hx
    rcases updFirst_mem hx with hm | ⟨o, ho, rfl⟩
    · exact hd x hm
    · show some addr ≠ some ""
      intro hc
      cases hc
      exact extractNewAddr_some_ne hext rfl

/- ===== Lemmas: reducing the handler to its branch ===== -/

theorem aiReply_create_eq {text : String}
    (h : (parseIntent text).intent = "create_order")
    (cfg : Option Backend) (now : Int) (rand : String) (ss : Sessions)
    (store : List OrderRec) (uid : String) :
    aiReplyFun cfg now rand ss store uid text =
      createStep cfg now rand ss store uid text (currentHist ss uid ++ [userMsg text]) := by
  unfold aiReplyFun
  rw [h]
  rfl

theorem aiReply_pickup_eq {text : String}
    (h : parseIntent text = ⟨"next_pickup", none⟩)
    (cfg : Option Backend) (now : Int) (rand : String) (ss : Sessions)
    (store : List OrderRec) (uid : String) :
    aiReplyFun cfg now rand ss store uid text =
      pickupStep ss store uid (currentHist ss uid ++ [userMsg text]) := by
  unfold aiReplyFun
  rw [h]
  rfl

theorem aiReply_cancel_eq {text : String}
    (h : parseIntent text = ⟨"cancel_order", none⟩)
    (cfg : Option Backend) (now : Int) (rand : String) (ss : Sessions)
    (store : List OrderRec) (uid : String) :
    aiReplyFun cfg now rand ss store uid text =
      cancelStep ss store uid text (currentHist ss uid ++ [userMsg text]) := by
  unfold aiReplyFun
  rw [h]
  rfl

theorem aiReply_addr_eq {text : String}
    (h : parseIntent text = ⟨"update_address", none⟩)
    (cfg : Option Backend) (now : Int) (rand : String) (ss : Sessions)
    (store : List OrderRec) (uid : String) :
    aiReplyFun cfg now rand ss store uid text =
      updAddrStep ss store uid text (currentHist ss uid ++ [userMsg text]) := by
  unfold aiReplyFun
  rw [h]
  rfl

theorem pi_tid_iff (text : String) :
    ((parseIntent text).trackingId).isSome = true ↔
      (parseIntent text).intent = "track_order" := by
  unfold parseIntent
  repeat' split
  all_goals simp

/- ===== Lemmas: utterances "delete order <id>" hit the cancel branch ===== -/

theorem anyPat_delete (pats : List String) {lid : List Char}
    (hB : lid.all (fun c => !(c == ' ')) = true)
    (hall : pats.all (fun p => (List.range ((("delete order ").data).length + 1)).all
      (fun s => !(fitsAt p.data ((("delete order ").data).drop s)))) = true) :
    anyPat pats ((("delete order ").data) ++ lid) = false := by
  cases hv : anyPat pats ((("delete order ").data) ++ lid) with
  | false => rfl
  | true =>
    exfalso
    unfold anyPat at hv
    rw [List.any_eq_true] at hv
    obtain ⟨p, hp, hpt⟩ := hv
    have hpt' : hasPat p.data ((("delete order ").data) ++ lid) = true := hpt
    have hfalse := hasPat_append_false p.data (("delete order ").data) lid hB
      ((List.all_eq_true.mp hall) p hp)
    rw [hfalse] at hpt'
    exact Bool.noConfusion hpt' 

theorem c9_parts {id : String} (hid : id.data.all alnumDash = true) :
    parseIntent ("delete order " ++ id) = ⟨"cancel_order", none⟩ ∧
    cancelCap (("delete order " ++ id)).data = none := by
  have hB : (lowerL id.data).all (fun c => !(c == ' ')) = true := lowerL_not_space hid
  have hlow := delete_order_lowT id
  have hcreate : anyPat createPats (lowT ("delete order " ++ id)) = false := by
    rw [hlow]; exact anyPat_delete createPats hB (by decide)
  have hpick : anyPat pickupPats (lowT ("delete order " ++ id)) = false := by
    rw [hlow]; exact anyPat_delete pickupPats hB (by decide)
  have hlist : anyPat listPats (lowT ("delete order " ++ id)) = false := by
    rw [hlow]; exact anyPat_delete listPats hB (by decide)
  have htrack : trackCap (lowT ("delete order " ++ id)) = none := by
    rw [hlow]
    unfold trackCap
    rw [scanTrack_none (hasPat_append_false (("track ").data) (("delete order ").data)
      (lowerL id.data) hB (by decide))]
    exact scanLitCap_none
      (hasPat_append_false (("where is order ").data) (("delete order ").data)
        (lowerL id.data) hB (by decide))
  have hcanc : anyPat cancelPats (lowT ("delete order " ++ id)) = true := by
    rw [hlow]
    unfold anyPat cancelPats
    rw [List.any_eq_true]
    refine ⟨"delete order", by simp, ?_⟩
    exact hasPat_of_isPreL (isPreL_append_of (by decide))
  refine ⟨pi_cancel hcreate htrack hpick hlist hcanc, ?_⟩
  apply cancelCap_none
  have hfalse : hasPat (("cancel order ").data) (lowT ("delete order " ++ id)) = false := by
    rw [hlow]
    exact hasPat_append_false (("cancel order ").data) (("delete order ").data)
      (lowerL id.data) hB (by decide)
  exact hfalse

theorem saveOrder_fresh {o : OrderRec} {store : List OrderRec}
    (h : ∀ x ∈ store, ¬(x.trackingId = o.trackingId)) :
    saveOrder o store = some (store ++ [o]) := by
  unfold saveOrder
  have hc : ¬(store.any (fun p => p.trackingId = o.trackingId) = true) := by
    rw [List.any_eq_true]
    rintro ⟨x, hx, hxx⟩
    exact h x hx (by simpa using hxx)
  rw [if_neg hc]

/- ===== The claims ===== -/

/-- Claim C1 (amended): the classifier returns exactly one tag of the closed
    intent set, evaluates its patterns in first-match-wins priority order
    (creation, tracking, pickup, list, cancel, address update), falls back to
    general, dispatches domain topics before the generic fallback, and on
    "create an order for 2 mangoes" yields create_order; on
    "track order ORD-ABC123" it yields track_order with the LOWER-CASED
    trackingId "ord-abc123", because the capture comes from the lower-cased
    utterance. -/
theorem c1_intent_classification :
    (∀ text, (parseIntent text).intent ∈ intentUniverse) ∧
    (∀ text, anyPat createPats (lowT text) = true →
      (parseIntent text).intent = "create_order") ∧
    (∀ text cap, anyPat createPats (lowT text) = false →
      trackCap (lowT text) = some cap →
      parseIntent text = ⟨"track_order", some (String.mk cap)⟩) ∧
    (∀ text, anyPat createPats (lowT text) = false →
      trackCap (lowT text) = none → anyPat pickupPats (lowT text) = true →
      (parseIntent text).intent = "next_pickup") ∧
    (∀ text, anyPat createPats (lowT text) = false →
      trackCap (lowT text) = none → anyPat pickupPats (lowT text) = false →
      anyPat listPats (lowT text) = true →
      (parseIntent text).intent = "list_orders") ∧
    (∀ text, anyPat createPats (lowT text) = false →
      trackCap (lowT text) = none → anyPat pickupPats (lowT text) = false →
      anyPat listPats (lowT text) = false → anyPat cancelPats (lowT text) = true →
      (parseIntent text).intent = "cancel_order") ∧
    (∀ text, anyPat createPats (lowT text) = false →
      trackCap (lowT text) = none → anyPat pickupPats (lowT text) = false →
      anyPat listPats (lowT text) = false → anyPat cancelPats (lowT text) = false →
      anyPat addrPats (lowT text) = true →
      (parseIntent text).intent = "update_address") ∧
    (∀ text, anyPat createPats (lowT text) = false →
      trackCap (lowT text) = none → anyPat pickupPats (lowT text) = false →
      anyPat listPats (lowT text) = false → anyPat cancelPats (lowT text) = false →
      anyPat addrPats (lowT text) = false →
      parseIntent text = ⟨"general", none⟩) ∧
    parseIntent ("create an order for 2 mangoes") = ⟨"create_order", none⟩ ∧
    parseIntent ("track order ORD-ABC123") = ⟨"track_order", some ("ord-abc123")⟩ ∧
    (∀ cfg now rand ss store uid text, (parseIntent text).intent = "general" →
      anyPat roadPats (lowT text) = true →
      (aiReplyFun cfg now rand ss store uid text).action = "road_ahead") ∧
    (∀ cfg now rand ss store uid (text : String), noRulePat text = true →
      ((aiReplyFun cfg now rand ss store uid text).action = "llm_reply" ∨
       (aiReplyFun cfg now rand ss store uid text).action = "fallback" ∨
       (aiReplyFun cfg now rand ss store uid text).status = 500)) := by
  refine ⟨pi_mem, ?_, ?_, ?_, ?_, ?_, ?_, ?_, by decide, by decide, ?_, ?_⟩
  · intro text h
    rw [pi_create h]
  · intro text cap h1 h2
    exact pi_track h1 h2
  · intro text h1 h2 h3
    rw [pi_pickup h1 h2 h3]
  · intro text h1 h2 h3 h4
    rw [pi_list h1 h2 h3 h4]
  · intro text h1 h2 h3 h4 h5
    rw [pi_cancel h1 h2 h3 h4 h5]
  · intro text h1 h2 h3 h4 h5 h6
    rw [pi_addr h1 h2 h3 h4 h5 h6]
  · intro text h1 h2 h3 h4 h5 h6
    exact pi_general h1 h2 h3 h4 h5 h6
  · intro cfg now rand ss store uid text hgen hroad
    unfold aiReplyFun
    rw [hgen, hroad]
    rfl
  · intro cfg now rand ss store uid text hnr
    rw [reach_fallback hnr]
    unfold fallbackTail
    cases cfg with
    | none => exact Or.inr (Or.inl rfl)
    | some b =>
      dsimp only
      cases b.chat ((takeRight 8 (currentHist ss uid ++ [userMsg text])).map normMsg) with
      | error e => exact Or.inr (Or.inr rfl)
      | ok c => exact Or.inl rfl

/-- Counterexample to claim C1 as stated: the extracted trackingId of
    "track order ORD-ABC123" is the lower-cased "ord-abc123", not
    "ORD-ABC123". -/
theorem c1_counterexample :
    (parseIntent ("track order ORD-ABC123")).trackingId = some ("ord-abc123") ∧
    ¬((parseIntent ("track order ORD-ABC123")).trackingId = some ("ORD-ABC123")) := by
  decide

/-- Witness for C1 at a concrete utterance. -/
theorem c1_witness :
    anyPat createPats (lowT ("create order now")) = true ∧
    (parseIntent ("create order now")).intent = "create_order" :=
  ⟨by decide, c1_intent_classification.2.1 ("create order now") (by decide)⟩

/-- Claim C2 (amended): a tracking id is attached to the classification
    result exactly when the track_order intent wins, and it is then the token
    captured by the track regexes from the lower-cased utterance; no other
    intent attaches the embedded ORD- code at classification time. -/
theorem c2_code_extraction :
    (∀ text, ((parseIntent text).trackingId).isSome = true ↔
      (parseIntent text).intent = "track_order") ∧
    (∀ text cap, anyPat createPats (lowT text) = false →
      trackCap (lowT text) = some cap →
      (parseIntent text).trackingId = some (String.mk cap)) := by
  refine ⟨pi_tid_iff, ?_⟩
  intro text cap h1 h2
  rw [pi_track h1 h2]

/-- Counterexample to claim C2 as stated: "cancel order ORD-A1" contains a
    well-formed tracking code, yet the classifier attaches none. -/
theorem c2_counterexample :
    (scanOrd (("cancel order ORD-A1").data)).isSome = true ∧
    parseIntent ("cancel order ORD-A1") = ⟨"cancel_order", none⟩ := by
  decide

/-- Witness for C2 at a concrete utterance. -/
theorem c2_witness :
    anyPat createPats (lowT ("track order ORD-9")) = false ∧
    trackCap (lowT ("track order ORD-9")) = some (("ord-9").data) ∧
    (parseIntent ("track order ORD-9")).trackingId = some (String.mk (("ord-9").data)) :=
  ⟨by decide, by decide,
    c2_code_extraction.2 ("track order ORD-9") (("ord-9").data) (by decide) (by decide)⟩

theorem findNextPickup_none_iff (store : List OrderRec) :
    findNextPickup store = none ↔ store.filter nonTerminal = [] := by
  rw [findNextPickup_eq_fold]
  constructor
  · intro h
    exact (nextFold_none h).2
  · intro h
    rw [h]
    rfl

/-- Claim C3 (amended): on the general fallback the handler forwards exactly
    the last 8 session turns (normalised, preamble included when in window)
    to the generative backend and relays a nonempty reply verbatim as
    llm_reply; an UNCONFIGURED backend yields the static apology with action
    fallback; a backend call that ERRORS is caught only by the top-level
    handler, which answers 500 Internal error rather than the apology. -/
theorem c3_fallback :
    (∀ now rand ss store uid (text : String), noRulePat text = true →
      (aiReplyFun none now rand ss store uid text).reply = cantProcess ∧
      (aiReplyFun none now rand ss store uid text).action = "fallback" ∧
      (aiReplyFun none now rand ss store uid text).status = 200 ∧
      (aiReplyFun none now rand ss store uid text).store = store) ∧
    (∀ (b : Backend) now rand ss store uid (text s : String),
      noRulePat text = true → ¬(s = "") →
      b.chat ((takeRight 8 (currentHist ss uid ++ [userMsg text])).map normMsg) =
        Except.ok (some s) →
      (aiReplyFun (some b) now rand ss store uid text).reply = s ∧
      (aiReplyFun (some b) now rand ss store uid text).action = "llm_reply" ∧
      (aiReplyFun (some b) now rand ss store uid text).status = 200 ∧
      (aiReplyFun (some b) now rand ss store uid text).store = store) ∧
    (∀ (b : Backend) now rand ss store uid (text : String),
      noRulePat text = true →
      b.chat ((takeRight 8 (currentHist ss uid ++ [userMsg text])).map normMsg) =
        Except.error () →
      (aiReplyFun (some b) now rand ss store uid text).status = 500 ∧
      (aiReplyFun (some b) now rand ss store uid text).reply = "Internal error") := by
  refine ⟨?_, ?_, ?_⟩
  · intro now rand ss store uid text h
    rw [reach_fallback h]
    exact ⟨rfl, rfl, rfl, rfl⟩
  · intro b now rand ss store uid text s h hs hchat
    rw [reach_fallback h]
    unfold fallbackTail
    dsimp only
    rw [hchat]
    refine ⟨?_, rfl, rfl, rfl⟩
    show (if s = "" then didntGet else s) = s
    rw [if_neg hs]
  · intro b now rand ss store uid text h hchat
    rw [reach_fallback h]
    unfold fallbackTail
    dsimp only
    rw [hchat]
    exact ⟨rfl, rfl⟩

/-- Counterexample to claim C3 as stated: with a configured backend whose
    chat call errors, the handler answers 500 Internal error, not the static
    apology, so the backend failure IS propagated as an error. -/
theorem c3_counterexample :
    (aiReplyFun (some errBackend) 0 ("") [] [] ("u") ("hello")).status = 500 ∧
    (aiReplyFun (some errBackend) 0 ("") [] [] ("u") ("hello")).reply = "Internal error" ∧
    ¬((aiReplyFun (some errBackend) 0 ("") [] [] ("u") ("hello")).reply = cantProcess) := by
  decide

/-- Witness for C3 on a healthy backend and on the unconfigured case. -/
theorem c3_witness :
    noRulePat ("hello") = true ∧
    (aiReplyFun (some okBackend) 0 ("") [] [] ("u") ("hello")).reply =
      "Namaste, main madad karta hoon." ∧
    (aiReplyFun (some okBackend) 0 ("") [] [] ("u") ("hello")).action = "llm_reply" ∧
    (aiReplyFun none 0 ("") [] [] ("u") ("hello")).action = "fallback" :=
  ⟨by decide,
    (c3_fallback.2.1 okBackend 0 ("") [] [] ("u") ("hello")
      ("Namaste, main madad karta hoon.") (by decide) (by decide) rfl).1,
    (c3_fallback.2.1 okBackend 0 ("") [] [] ("u") ("hello")
      ("Namaste, main madad karta hoon.") (by decide) (by decide) rfl).2.1,
    (c3_fallback.1 0 ("") [] [] ("u") ("hello") (by decide)).2.1⟩

/-- Claim C4 (amended): next_pickup returns the earliest order among the
    non-terminal statuses created/assigned/pending, ordered by pickup time
    then creation time ascending, where a NULL pickup time sorts BEFORE every
    non-null one (MongoDB ascending BSON order); with no such order the reply
    states there are no upcoming pickups. -/
theorem c4_next_pickup :
    (∀ store, findNextPickup store = none ↔ store.filter nonTerminal = []) ∧
    (∀ store r, findNextPickup store = some r →
      r ∈ store ∧ nonTerminal r = true ∧
      ∀ o ∈ store, nonTerminal o = true → mongoLt o r = false) ∧
    (∀ cfg now rand ss store uid, store.filter nonTerminal = [] →
      (aiReplyFun cfg now rand ss store uid ("next pickup")).reply =
        "You have no upcoming pickups." ∧
      (aiReplyFun cfg now rand ss store uid ("next pickup")).action = "no_pickups") ∧
    (∀ cfg now rand ss store uid r, findNextPickup store = some r →
      (aiReplyFun cfg now rand ss store uid ("next pickup")).orderOut = some r ∧
      (aiReplyFun cfg now rand ss store uid ("next pickup")).action = "next_pickup") := by
  refine ⟨findNextPickup_none_iff, fun store r h => findNextPickup_spec h, ?_, ?_⟩
  · intro cfg now rand ss store uid hempty
    rw [aiReply_pickup_eq (by decide)]
    unfold pickupStep
    rw [show findNextPickup store = none from (findNextPickup_none_iff store).mpr hempty]
    exact ⟨rfl, rfl⟩
  · intro cfg now rand ss store uid r hr
    rw [aiReply_pickup_eq (by decide)]
    unfold pickupStep
    rw [hr]
    exact ⟨rfl, rfl⟩

/-- Counterexample to claim C4 as stated: with one dated and one null-pickup
    non-terminal order, the query returns the NULL one first, while the
    specification ordering (nulls after dates) would return the dated one. -/
theorem c4_counterexample :
    findNextPickup [ordTimed, ordNull] = some ordNull ∧
    ordNull.pickupTime = none ∧ ordTimed.pickupTime = some 5 ∧
    nonTerminal ordTimed = true ∧
    specNextPickup [ordTimed, ordNull] = some ordTimed ∧
    ¬(findNextPickup [ordTimed, ordNull] = specNextPickup [ordTimed, ordNull]) := by
  decide

/-- Witness for C4 at a concrete store. -/
theorem c4_witness :
    findNextPickup [ordTimed, ordNull] = some ordNull ∧
    (ordNull ∈ [ordTimed, ordNull] ∧ nonTerminal ordNull = true ∧
      ∀ o ∈ [ordTimed, ordNull], nonTerminal o = true → mongoLt o ordNull = false) :=
  ⟨by decide, c4_next_pickup.2.1 [ordTimed, ordNull] ordNull (by decide)⟩

/-- Claim C5 (amended): the minted code always matches ORD-[A-Za-z0-9]+; when
    it does not collide with a stored code, the new order is persisted with
    that code and status created (so the code is unique among previously
    created orders); on a collision the unique index rejects the save and the
    request fails with 500 leaving the store untouched; stored codes stay
    pairwise distinct. -/
theorem c5_create_order :
    (∀ (now : Int) (rand : String), rand.data.all alnum = true →
      matchesOrdCode (makeTrackingId now rand) = true) ∧
    (∀ cfg now rand ss store uid (text : String),
      (parseIntent text).intent = "create_order" →
      (∀ x ∈ store, ¬(x.trackingId = makeTrackingId now rand)) →
      ∃ o, (aiReplyFun cfg now rand ss store uid text).orderOut = some o ∧
        (aiReplyFun cfg now rand ss store uid text).store = store ++ [o] ∧
        o.trackingId = makeTrackingId now rand ∧ o.status = "created" ∧
        (aiReplyFun cfg now rand ss store uid text).action = "created_order" ∧
        (aiReplyFun cfg now rand ss store uid text).status = 200) ∧
    (∀ cfg now rand ss store uid (text : String) x,
      (parseIntent text).intent = "create_order" →
      x ∈ store → x.trackingId = makeTrackingId now rand →
      (aiReplyFun cfg now rand ss store uid text).status = 500 ∧
      (aiReplyFun cfg now rand ss store uid text).store = store) ∧
    (∀ cfg now rand ss store uid text, distinctCodes store →
      distinctCodes (aiReplyFun cfg now rand ss store uid text).store) := by
  refine ⟨fun now rand h => makeTrackingId_format now h, ?_, ?_, distinct_invariant⟩
  · intro cfg now rand ss store uid text hint hfresh
    rw [aiReply_create_eq hint]
    unfold createStep
    dsimp only
    rw [saveOrder_fresh hfresh]
    exact ⟨_, rfl, rfl, rfl, rfl, rfl, rfl⟩
  · intro cfg now rand ss store uid text x hint hx hxx
    rw [aiReply_create_eq hint]
    unfold createStep
    dsimp only
    rw [saveOrder_dup hx hxx]
    exact ⟨rfl, rfl⟩

/-- Counterexample to claim C5 as stated: a second create request arriving
    with the same clock millisecond and the same random slice mints the SAME
    code; it is not unique across previously created orders, and nothing is
    persisted (the request fails with 500). -/
theorem c5_counterexample :
    ((aiReplyFun none 0 ("abc123") [] [] ("demo-user")
        ("create an order for mangoes")).store).map (fun o => o.trackingId) =
      ["ORD-0ABC123"] ∧
    makeTrackingId 0 ("abc123") = "ORD-0ABC123" ∧
    (aiReplyFun none 0 ("abc123")
      (aiReplyFun none 0 ("abc123") [] [] ("demo-user")
        ("create an order for mangoes")).sessions
      (aiReplyFun none 0 ("abc123") [] [] ("demo-user")
        ("create an order for mangoes")).store
      ("demo-user") ("create an order for mangoes")).status = 500 ∧
    (aiReplyFun none 0 ("abc123")
      (aiReplyFun none 0 ("abc123") [] [] ("demo-user")
        ("create an order for mangoes")).sessions
      (aiReplyFun none 0 ("abc123") [] [] ("demo-user")
        ("create an order for mangoes")).store
      ("demo-user") ("create an order for mangoes")).store =
    (aiReplyFun none 0 ("abc123") [] [] ("demo-user")
      ("create an order for mangoes")).store := by
  decide

/-- Witness for C5 on the code format at a concrete clock and random slice. -/
theorem c5_witness :
    (("a1b2").data).all alnum = true ∧
    matchesOrdCode (makeTrackingId 7 ("a1b2")) = true :=
  ⟨by decide, c5_create_order.1 7 ("a1b2") (by decide)⟩

/-- Claim C6 (amended): the update_address branch matches the first ORD- code
    case-insensitively, upper-cases it, and computes the new address as the
    segment of the utterance following the FIRST occurrence of that
    UPPER-CASED code (split segment [1]), trimmed, then stripped of a leading
    "to ", then a leading "is ", then a leading ":", each at most once and in
    this order; so "to is Pune" becomes "Pune", and a code written in lower
    case in the utterance yields no address at all (the split finds nothing). -/
theorem c6_update_address :
    (∀ text tid s0, splitSecond tid.data text.data = some s0 →
      extractNewAddr text tid = stripConnectors (trimL s0)) ∧
    (∀ (text tid : String), firstOcc tid.data text.data = none →
      extractNewAddr text tid = none) ∧
    ((aiReplyFun none 0 ("") [] [ordA7] ("u")
        ("update address ORD-A7 to is Pune")).action = "update_address" ∧
      ((aiReplyFun none 0 ("") [] [ordA7] ("u")
        ("update address ORD-A7 to is Pune")).store).map (fun o => o.address) =
        [some ("Pune")]) ∧
    ((aiReplyFun none 0 ("") [] [ordA7] ("u")
        ("update address ord-a7 to Pune")).action = "ask_for_address" ∧
      (aiReplyFun none 0 ("") [] [ordA7] ("u")
        ("update address ord-a7 to Pune")).store = [ordA7]) := by
  refine ⟨?_, ?_, by decide, by decide⟩
  · intro text tid s0 h
    unfold extractNewAddr
    rw [h]
    rfl
  · intro text tid h
    unfold extractNewAddr splitSecond
    rw [h]
    rfl

/-- Counterexample to claim C6 as stated: after the code "ORD-A7" the
    utterance carries "to is Pune"; stripping ONE connector, as the claim
    says, would store "is Pune", but the code strips both and stores "Pune". -/
theorem c6_counterexample :
    extractNewAddr ("update address ORD-A7 to is Pune") ("ORD-A7") = some ("Pune") ∧
    specAddrOne ("update address ORD-A7 to is Pune") ("ORD-A7") = some ("is Pune") ∧
    ¬(extractNewAddr ("update address ORD-A7 to is Pune") ("ORD-A7") =
      specAddrOne ("update address ORD-A7 to is Pune") ("ORD-A7")) := by
  decide

/-- Witness for C6 at a concrete utterance. -/
theorem c6_witness :
    splitSecond (("ORD-A7").data) (("update address ORD-A7 to Pune").data) =
      some ((" to Pune").data) ∧
    extractNewAddr ("update address ORD-A7 to Pune") ("ORD-A7") =
      stripConnectors (trimL ((" to Pune").data)) :=
  ⟨by decide, c6_update_address.1 ("update address ORD-A7 to Pune") ("ORD-A7")
    ((" to Pune").data) (by decide)⟩

/-- Claim C7: an update_address utterance with a tracking code but nothing
    left after connector stripping answers ask_for_address and mutates
    nothing; more generally no branch ever writes an empty address. -/
theorem c7_ask_for_address :
    (∀ cfg now rand ss store uid (text : String) m0,
      parseIntent text = ⟨"update_address", none⟩ →
      scanOrd text.data = some m0 →
      extractNewAddr text (String.mk (upperL m0)) = none →
      (aiReplyFun cfg now rand ss store uid text).action = "ask_for_address" ∧
      (aiReplyFun cfg now rand ss store uid text).store = store ∧
      (aiReplyFun cfg now rand ss store uid text).status = 200) ∧
    (∀ cfg now rand ss store uid text, noEmptyAddr store →
      noEmptyAddr (aiReplyFun cfg now rand ss store uid text).store) := by
  refine ⟨?_, noEmptyAddr_invariant⟩
  intro cfg now rand ss store uid text m0 hpi hscan hext
  rw [aiReply_addr_eq hpi]
  unfold updAddrStep
  rw [hscan]
  dsimp only
  rw [hext]
  exact ⟨rfl, rfl, rfl⟩

/-- Witness for C7 at a concrete utterance with no address remainder. -/
theorem c7_witness :
    parseIntent ("update address ORD-A7") = ⟨"update_address", none⟩ ∧
    scanOrd (("update address ORD-A7").data) = some (("ORD-A7").data) ∧
    extractNewAddr ("update address ORD-A7") (String.mk (upperL (("ORD-A7").data))) = none ∧
    ((aiReplyFun none 0 ("") [] [ordA7] ("u") ("update address ORD-A7")).action =
        "ask_for_address" ∧
      (aiReplyFun none 0 ("") [] [ordA7] ("u") ("update address ORD-A7")).store = [ordA7] ∧
      (aiReplyFun none 0 ("") [] [ordA7] ("u") ("update address ORD-A7")).status = 200) :=
  ⟨by decide, by decide, by decide,
    c7_ask_for_address.1 none 0 ("") [] [ordA7] ("u") ("update address ORD-A7")
      ((("ORD-A7").data)) (by decide) (by decide) (by decide)⟩

/-- Claim C8: every branch that answers 200 appends the utterance and the
    produced reply to the session before returning; a first utterance seeds
    the history with exactly one system preamble turn; the stored history is
    only ever extended. -/
theorem c8_session_append (cfg : Option Backend) (now : Int) (rand : String)
    (ss : Sessions) (store : List OrderRec) (uid text : String) :
    ((aiReplyFun cfg now rand ss store uid text).status = 200 →
      lookupSession (aiReplyFun cfg now rand ss store uid text).sessions uid =
        some (currentHist ss uid ++
          [userMsg text, asstMsg (aiReplyFun cfg now rand ss store uid text).reply])) ∧
    (lookupSession ss uid = none → currentHist ss uid = [seedMsg]) ∧
    (∃ tail, lookupSession (aiReplyFun cfg now rand ss store uid text).sessions uid =
      some (currentHist ss uid ++ tail)) := by
  have h := histShape_aiReply cfg now rand ss store uid text
  refine ⟨?_, ?_, ?_⟩
  · intro h200
    rcases h with ⟨_, hh⟩ | ⟨h500, _⟩
    · rw [hh]
      simp
    · rw [h200] at h500
      exact absurd h500 (by decide)
  · intro hnone
    unfold currentHist
    rw [hnone]
  · rcases h with ⟨_, hh⟩ | ⟨_, hh⟩
    · exact ⟨[userMsg text, asstMsg (aiReplyFun cfg now rand ss store uid text).reply],
        by rw [hh]; simp⟩
    · exact ⟨[userMsg text], by rw [hh]⟩

/-- Witness for C8 on a first-time user and the no-backend fallback. -/
theorem c8_witness :
    lookupSession (aiReplyFun none 0 ("") [] [] ("u") ("hello")).sessions "u" =
      some (currentHist [] "u" ++
        [userMsg ("hello"), asstMsg (aiReplyFun none 0 ("") [] [] ("u") ("hello")).reply]) :=
  (c8_session_append none 0 ("") [] [] ("u") ("hello")).1 (by decide)

/-- Claim C9: an utterance of the shape "delete order <id>" (id nonempty,
    alphanumeric/hyphen) classifies as cancel_order, yet the handler only
    answers ask_for_order_id — its regex wants "cancel order <id>" — so no
    deletion, cancellation or any other store mutation happens. -/
theorem c9_delete_order (id : String) (_hne : ¬(id = ""))
    (hid : id.data.all alnumDash = true)
    (cfg : Option Backend) (now : Int) (rand : String) (ss : Sessions)
    (store : List OrderRec) (uid : String) :
    (parseIntent ("delete order " ++ id)).intent = "cancel_order" ∧
    (aiReplyFun cfg now rand ss store uid ("delete order " ++ id)).action =
      "ask_for_order_id" ∧
    (aiReplyFun cfg now rand ss store uid ("delete order " ++ id)).store = store ∧
    (aiReplyFun cfg now rand ss store uid ("delete order " ++ id)).status = 200 := by
  obtain ⟨hpi, hcc⟩ := c9_parts hid
  rw [aiReply_cancel_eq hpi]
  unfold cancelStep
  rw [hcc]
  exact ⟨by rw [hpi], rfl, rfl, rfl⟩

/-- Witness for C9 at a concrete identifier. -/
theorem c9_witness :
    ¬(("ORD-123" : String) = "") ∧ (("ORD-123").data).all alnumDash = true ∧
    ((parseIntent ("delete order " ++ "ORD-123")).intent = "cancel_order" ∧
      (aiReplyFun none 0 ("") [] [ordA7] ("u") ("delete order " ++ "ORD-123")).action =
        "ask_for_order_id" ∧
      (aiReplyFun none 0 ("") [] [ordA7] ("u") ("delete order " ++ "ORD-123")).store = [ordA7] ∧
      (aiReplyFun none 0 ("") [] [ordA7] ("u") ("delete order " ++ "ORD-123")).status = 200) :=
  ⟨by decide, by decide,
    c9_delete_order ("ORD-123") (by decide) (by decide) none 0 ("") [] [ordA7] ("u")⟩

/-- Claim C10: when the generative call raises, the endpoint answers 500
    Internal error, but the user turn already pushed stays in the session:
    a user turn without a matching assistant turn (state mutated on error). -/
theorem c10_error_no_rollback {text : String} (h : noRulePat text = true)
    (b : Backend) (now : Int) (rand : String) (ss : Sessions)
    (store : List OrderRec) (uid : String)
    (hchat : b.chat ((takeRight 8 (currentHist ss uid ++ [userMsg text])).map normMsg) =
      Except.error ()) :
    (aiReplyFun (some b) now rand ss store uid text).status = 500 ∧
    (aiReplyFun (some b) now rand ss store uid text).reply = "Internal error" ∧
    lookupSession (aiReplyFun (some b) now rand ss store uid text).sessions uid =
      some (currentHist ss uid ++ [userMsg text]) ∧
    (aiReplyFun (some b) now rand ss store uid text).store = store := by
  rw [reach_fallback h]
  unfold fallbackTail
  dsimp only
  rw [hchat]
  exact ⟨rfl, rfl, by simp [mkErr, lookup_set], rfl⟩

/-- Witness for C10 with a concrete erroring backend. -/
theorem c10_witness :
    noRulePat ("hello") = true ∧
    ((aiReplyFun (some errBackend) 0 ("") [] [] ("u") ("hello")).status = 500 ∧
      (aiReplyFun (some errBackend) 0 ("") [] [] ("u") ("hello")).reply = "Internal error" ∧
      lookupSession (aiReplyFun (some errBackend) 0 ("") [] [] ("u") ("hello")).sessions "u" =
        some (currentHist [] "u" ++ [userMsg ("hello")]) ∧
      (aiReplyFun (some errBackend) 0 ("") [] [] ("u") ("hello")).store = []) :=
  ⟨by decide, c10_error_no_rollback (by decide) errBackend 0 ("") [] [] ("u") rfl⟩
